import Mathlib

/-!
# Verification of the LossLandscape terrain / particle simulation core

Shallow embedding of the core of `LossLandscape.jsx` (the procedural
height field, the precomputed gradient field, the particle simulation and
the wave scheduler) and proofs of the specification claims about it.

Modelling conventions:
* JavaScript numbers are modelled as exact rationals (`ℚ`).  The
  transcendental host primitives `Math.sin`, `Math.pow` (for non-integer
  exponents) and `Math.sqrt`, which have no exact rational counterpart,
  are taken as parameters in a `JsPrims` structure; integer-exponent
  `Math.pow` calls are modelled by exact powers.
* The `Float32Array` gradient maps are modelled as total functions
  `ℤ → ℚ`; the boundary-safety theorem shows that only indices inside
  `[0, resolution² − 1]` are ever used by the sampler.
* The ground-intersection raycast is an external collaborator (spec §6);
  each iteration of the spawn loop consumes one `Candidate` carrying the
  raycast result for that iteration's random draw.
-/

namespace LossLandscape

/-- Host math primitives (`Math.sin`, `Math.pow`, `Math.sqrt`), modelled as
abstract functions over the rationals. -/
structure JsPrims where
  sin : ℚ → ℚ
  pow : ℚ → ℚ → ℚ
  sqrt : ℚ → ℚ

/-- A trivial instantiation of the host primitives, used to evaluate the
model on concrete inputs in witnesses and counterexamples. -/
def prims0 : JsPrims :=
  { sin := fun _ => 0, pow := fun _ _ => 0, sqrt := fun _ => 0 }

/-! ## Configuration constants (`VISUAL_CONFIG`) -/

/-- `VISUAL_CONFIG.TERRAIN.WIDTH` -/
def TERRAIN_WIDTH : ℚ := 2000
/-- `VISUAL_CONFIG.TERRAIN.DEPTH` -/
def TERRAIN_DEPTH : ℚ := 2000
/-- `VISUAL_CONFIG.TERRAIN.GLOBAL_SCALE` -/
def GLOBAL_SCALE : ℚ := 0.008
/-- `VISUAL_CONFIG.TERRAIN.HEIGHT_MULTIPLIER` -/
def HEIGHT_MULTIPLIER : ℚ := 3.0
/-- `VISUAL_CONFIG.TERRAIN.SEED` (the fixed seed in the source). -/
def SEED : ℚ := 5520.35550386228
/-- `VISUAL_CONFIG.TERRAIN.WIREFRAME_OPACITY` -/
def WIREFRAME_OPACITY : ℚ := 0.07
/-- `VISUAL_CONFIG.WAVES.FIRST_WAVE_DELAY` -/
def FIRST_WAVE_DELAY : ℚ := 1.0
/-- `VISUAL_CONFIG.WAVES.PARTICLES_PER_WAVE` -/
def PARTICLES_PER_WAVE : ℕ := 1000
/-- `VISUAL_CONFIG.WAVES.BATCH_SIZE` -/
def BATCH_SIZE : ℕ := 20
/-- `VISUAL_CONFIG.WAVES.MAX_WAVE_INTERVAL` -/
def MAX_WAVE_INTERVAL : ℚ := 15.0
/-- `VISUAL_CONFIG.WAVES.SWELL_TIME` -/
def SWELL_TIME : ℚ := 2.0
/-- `VISUAL_CONFIG.WAVES.MAX_SWELL_OPACITY` -/
def MAX_SWELL_OPACITY : ℚ := 0.22
/-- `VISUAL_CONFIG.WAVES.FLASH_DECAY` -/
def FLASH_DECAY : ℚ := 0.15
/-- `VISUAL_CONFIG.WAVES.VELOCITY_THRESHOLD` -/
def VELOCITY_THRESHOLD : ℚ := 0.001
/-- `VISUAL_CONFIG.WAVES.FADE_OUT_SPEED` -/
def FADE_OUT_SPEED : ℚ := 0.02
/-- `VISUAL_CONFIG.WAVES.BUFFER_TIME` -/
def BUFFER_TIME : ℚ := 1.0
/-- `VISUAL_CONFIG.WAVES.MIN_SPAWN_HEIGHT` -/
def MIN_SPAWN_HEIGHT : ℚ := 0.0
/-- `VISUAL_CONFIG.PHYSICS.LEARNING_RATE` -/
def LEARNING_RATE : ℚ := 0.002
/-- `VISUAL_CONFIG.PHYSICS.MOMENTUM` -/
def MOMENTUM : ℚ := 0.92
/-- `VISUAL_CONFIG.PHYSICS.MAX_AGE` -/
def MAX_AGE : ℕ := 1200
/-- `VISUAL_CONFIG.PHYSICS.GRADIENT_MAP_RESOLUTION` -/
def GRADIENT_MAP_RESOLUTION : ℕ := 512
/-- `VISUAL_CONFIG.PARTICLES.HEIGHT_OFFSET` -/
def HEIGHT_OFFSET : ℚ := 5.0
/-- `VISUAL_CONFIG.PARTICLES.REACTION.MIN_GLOW` -/
def MIN_GLOW : ℚ := 0.0
/-- `VISUAL_CONFIG.PARTICLES.REACTION.MAX_GLOW` -/
def MAX_GLOW : ℚ := 15.0
/-- `VISUAL_CONFIG.PARTICLES.REACTION.MIN_OPACITY` -/
def MIN_OPACITY : ℚ := 0.05
/-- `VISUAL_CONFIG.PARTICLES.REACTION.MAX_OPACITY` -/
def MAX_OPACITY : ℚ := 1.0
/-- `VISUAL_CONFIG.PARTICLES.REACTION.SENSITIVITY` -/
def REACTION_SENSITIVITY : ℚ := 15.0
/-- `VISUAL_CONFIG.PARTICLES.LOSS_SCALE_SENSITIVITY` -/
def LOSS_SCALE_SENSITIVITY : ℚ := 3.0
/-- `VISUAL_CONFIG.PARTICLES.MIN_LOSS_SCALE` -/
def MIN_LOSS_SCALE : ℚ := 1.0
/-- `VISUAL_CONFIG.PARTICLES.MAX_LOSS_SCALE` -/
def MAX_LOSS_SCALE : ℚ := 20.0
/-- `VISUAL_CONFIG.PARTICLES.REVERSE_SCALING` -/
def REVERSE_SCALING : Bool := false
/-- `VISUAL_CONFIG.PARTICLES.SCALE_DISTRIBUTION_POWER` -/
def SCALE_DISTRIBUTION_POWER : ℚ := 2.5

/-! ## Small helpers from `THREE.MathUtils` / JS -/

/-- `THREE.MathUtils.lerp(x, y, t) = (1 − t)·x + t·y`. -/
def lerpQ (x y t : ℚ) : ℚ := (1 - t) * x + t * y

/-- `THREE.MathUtils.clamp(value, lo, hi) = Math.max(lo, Math.min(hi, value))`. -/
def clampQ (value lo hi : ℚ) : ℚ := max lo (min hi value)

/-- `x - Math.floor(x)`, the fractional part used by the hash. -/
def jsFract (q : ℚ) : ℚ := q - ⌊q⌋

/-- JS `isFinite`; in the rational model every value is finite. -/
def jsFinite (_ : ℚ) : Bool := true

/-! ## Height Field (`lossFunction`, lines 282–339) -/

/-- The pseudo-random lattice hash inside `lossFunction`:
`sin((px+SEED)·12.9898 + (pz+SEED)·78.233)·43758.5453123`, fractional part. -/
def hashTerrain (sine : ℚ → ℚ) (seed px pz : ℚ) : ℚ :=
  jsFract (sine ((px + seed) * 12.9898 + (pz + seed) * 78.233) * 43758.5453123)

/-- The value-noise function inside `lossFunction`: bilinear interpolation of
the four lattice-corner hashes with cubic Hermite smoothing. -/
def noiseTerrain (sine : ℚ → ℚ) (seed tx tz : ℚ) : ℚ :=
  let ix : ℚ := (⌊tx⌋ : ℤ)
  let iz : ℚ := (⌊tz⌋ : ℤ)
  let fx := tx - ix
  let fz := tz - iz
  let a := hashTerrain sine seed ix iz
  let b := hashTerrain sine seed (ix + 1) iz
  let c := hashTerrain sine seed ix (iz + 1)
  let d := hashTerrain sine seed (ix + 1) (iz + 1)
  let ux := fx * fx * (3 - 2 * fx)
  let uz := fz * fz * (3 - 2 * fz)
  lerpQ a b ux + (c - a) * uz * (1 - ux) + (d - b) * ux * uz

/-- One iteration of the fBm loop: state `(h, amp, freq)`; ridged remap
`n ← 1 − |2n − 1|`, sharpening `n ← n³`, then `h += n·amp`, `amp *= 0.55`,
`freq *= 2.1`. -/
def fbmStep (sine : ℚ → ℚ) (seed x z : ℚ) (st : ℚ × ℚ × ℚ) : ℚ × ℚ × ℚ :=
  let n0 := noiseTerrain sine seed (x * st.2.2) (z * st.2.2)
  let n1 := 1 - |n0 * 2 - 1|
  let n2 := n1 ^ 3
  (st.1 + n2 * st.2.1, st.2.1 * 0.55, st.2.2 * 2.1)

/-- `lossFunction(x, z)`: 5-octave ridged fBm starting at `amp = 28`,
`freq = GLOBAL_SCALE·0.5`, final offset/scale `(h − 12)·HEIGHT_MULTIPLIER`. -/
def lossFunction (sine : ℚ → ℚ) (seed x z : ℚ) : ℚ :=
  let r := (fbmStep sine seed x z)^[5] (0, 28.0, GLOBAL_SCALE * 0.5)
  (r.1 - 12) * HEIGHT_MULTIPLIER

/-! ## Gradient Field (`GRADIENT_MAP_CONFIG`, `buildGradientMap`, `gradient`) -/

/-- `GRADIENT_MAP_CONFIG.MIN_X = -TERRAIN.WIDTH / 2` -/
def MIN_X : ℚ := -(TERRAIN_WIDTH / 2)
/-- `GRADIENT_MAP_CONFIG.MAX_X = TERRAIN.WIDTH / 2` -/
def MAX_X : ℚ := TERRAIN_WIDTH / 2
/-- `GRADIENT_MAP_CONFIG.MIN_Z = -TERRAIN.DEPTH / 2` -/
def MIN_Z : ℚ := -(TERRAIN_DEPTH / 2)
/-- `GRADIENT_MAP_CONFIG.MAX_Z = TERRAIN.DEPTH / 2` -/
def MAX_Z : ℚ := TERRAIN_DEPTH / 2
/-- The central-difference step `h = 0.05` in `buildGradientMap`. -/
def hStep : ℚ := 0.05
/-- `stepX = (MAX_X - MIN_X) / (RESOLUTION - 1)` in `buildGradientMap`. -/
def gridStepX : ℚ := (MAX_X - MIN_X) / ((GRADIENT_MAP_RESOLUTION : ℚ) - 1)
/-- `stepZ = (MAX_Z - MIN_Z) / (RESOLUTION - 1)` in `buildGradientMap`. -/
def gridStepZ : ℚ := (MAX_Z - MIN_Z) / ((GRADIENT_MAP_RESOLUTION : ℚ) - 1)
/-- The world x-coordinate of grid column `ix`: `x = MIN_X + ix * stepX`. -/
def gridX (ix : ℤ) : ℚ := MIN_X + ix * gridStepX
/-- The world z-coordinate of grid row `iz`: `z = MIN_Z + iz * stepZ`. -/
def gridZ (iz : ℤ) : ℚ := MIN_Z + iz * gridStepZ

/-- The built gradient map: the two `Float32Array`s (as total maps from flat
index to value) and the step sizes, exactly the record `buildGradientMap`
returns. -/
structure GradMap where
  dxMap : ℤ → ℚ
  dzMap : ℤ → ℚ
  stepX : ℚ
  stepZ : ℚ

/-- `buildGradientMap` (lines 356–383).  The JS nested loops write the flat
index `idx = iz·RESOLUTION + ix` exactly once each; the functional model
recovers `(ix, iz)` from `idx` and produces the value written there:
the central differences of `lossFunction` with step `hStep`, with non-finite
results replaced by zero. -/
def buildGradientMap (sine : ℚ → ℚ) (seed : ℚ) : GradMap :=
  { dxMap := fun idx =>
      let iz := idx / (GRADIENT_MAP_RESOLUTION : ℤ)
      let ix := idx % (GRADIENT_MAP_RESOLUTION : ℤ)
      let dx := (lossFunction sine seed (gridX ix + hStep) (gridZ iz) -
                 lossFunction sine seed (gridX ix - hStep) (gridZ iz)) / (2 * hStep)
      if jsFinite dx then dx else 0
    dzMap := fun idx =>
      let iz := idx / (GRADIENT_MAP_RESOLUTION : ℤ)
      let ix := idx % (GRADIENT_MAP_RESOLUTION : ℤ)
      let dz := (lossFunction sine seed (gridX ix) (gridZ iz + hStep) -
                 lossFunction sine seed (gridX ix) (gridZ iz - hStep)) / (2 * hStep)
      if jsFinite dz then dz else 0
    stepX := gridStepX
    stepZ := gridStepZ }

/-- Fractional grid coordinate `gx = ((x - MIN_X)/(MAX_X - MIN_X))·(RESOLUTION - 1)`
computed by `gradient`. -/
def gradGx (x : ℚ) : ℚ :=
  ((x - MIN_X) / (MAX_X - MIN_X)) * ((GRADIENT_MAP_RESOLUTION : ℚ) - 1)

/-- Fractional grid coordinate in z computed by `gradient`. -/
def gradGz (z : ℚ) : ℚ :=
  ((z - MIN_Z) / (MAX_Z - MIN_Z)) * ((GRADIENT_MAP_RESOLUTION : ℚ) - 1)

/-- `x0 = Math.floor(clamp(gx, 0, RESOLUTION - 2))` in `gradient`. -/
def gradX0 (x : ℚ) : ℤ := ⌊clampQ (gradGx x) 0 ((GRADIENT_MAP_RESOLUTION : ℚ) - 2)⌋

/-- `z0 = Math.floor(clamp(gz, 0, RESOLUTION - 2))` in `gradient`. -/
def gradZ0 (z : ℚ) : ℤ := ⌊clampQ (gradGz z) 0 ((GRADIENT_MAP_RESOLUTION : ℚ) - 2)⌋

/-- The interpolation weight `tx = gx - x0` in `gradient` (note: computed
from the unclamped `gx`). -/
def gradTx (x : ℚ) : ℚ := gradGx x - gradX0 x

/-- The interpolation weight `tz = gz - z0` in `gradient`. -/
def gradTz (z : ℚ) : ℚ := gradGz z - gradZ0 z

/-- The inner `sample` closure of `gradient`: reads the four surrounding
stored values at flat indices `z·RESOLUTION + x` and combines them with the
bilinear formula. -/
def sampleBilinear (arr : ℤ → ℚ) (x0 z0 : ℤ) (tx tz : ℚ) : ℚ :=
  let v00 := arr (z0 * (GRADIENT_MAP_RESOLUTION : ℤ) + x0)
  let v10 := arr (z0 * (GRADIENT_MAP_RESOLUTION : ℤ) + (x0 + 1))
  let v01 := arr ((z0 + 1) * (GRADIENT_MAP_RESOLUTION : ℤ) + x0)
  let v11 := arr ((z0 + 1) * (GRADIENT_MAP_RESOLUTION : ℤ) + (x0 + 1))
  (1 - tx) * (1 - tz) * v00 + tx * (1 - tz) * v10 +
    (1 - tx) * tz * v01 + tx * tz * v11

/-- `gradient(x, z)` (lines 386–417): returns `(0,0)` when the map has not
been built, else samples both stored maps bilinearly. -/
def gradient (mapRef : Option GradMap) (x z : ℚ) : ℚ × ℚ :=
  match mapRef with
  | none => (0, 0)
  | some m =>
    (sampleBilinear m.dxMap (gradX0 x) (gradZ0 z) (gradTx x) (gradTz z),
     sampleBilinear m.dzMap (gradX0 x) (gradZ0 z) (gradTx x) (gradTz z))

/-! ## Theorems: Height Field and Gradient Field claims -/

/-- The clamp helper stays inside its bounds. -/
theorem clampQ_mem (value lo hi : ℚ) (h : lo ≤ hi) :
    lo ≤ clampQ value lo hi ∧ clampQ value lo hi ≤ hi :=
  ⟨le_max_left _ _, max_le h (min_le_left _ _)⟩

/-- C1: for a fixed configured seed the elevation function is deterministic —
two calls of `lossFunction` with identical `(x, z)` yield identical output,
and two builds of the gradient map with the same seed (and the fixed
resolution) produce identical `dx` and `dz` maps.  Determinism holds because
the embedded functions are pure: the source reads no mutable state. -/
theorem loss_and_build_deterministic (prims : JsPrims) (seed seed2 x1 z1 x2 z2 : ℚ)
    (hx : x1 = x2) (hz : z1 = z2) (hs : seed = seed2) :
    lossFunction prims.sin seed x1 z1 = lossFunction prims.sin seed x2 z2 ∧
    buildGradientMap prims.sin seed = buildGradientMap prims.sin seed2 := by
  subst hx
  subst hz
  subst hs
  exact ⟨rfl, rfl⟩

/-- Witness for C1 at concrete inputs. -/
theorem loss_and_build_deterministic_witness :
    (3 : ℚ) = 3 ∧ (7 : ℚ) = 7 ∧ SEED = SEED ∧
    (lossFunction prims0.sin SEED 3 7 = lossFunction prims0.sin SEED 3 7 ∧
     buildGradientMap prims0.sin SEED = buildGradientMap prims0.sin SEED) :=
  ⟨rfl, rfl, rfl, loss_and_build_deterministic prims0 SEED SEED 3 7 3 7 rfl rfl rfl⟩

/-- C3: the one-time gradient-map build stores, at every grid cell
`(ix, iz)` of the `resolution × resolution` grid covering
`[−width/2, width/2] × [−depth/2, depth/2]`, the central differences
`dx = (elevation(x+h,z) − elevation(x−h,z)) / 2h` (and `dz` analogously)
with `h = 0.05`; non-finite values are replaced by zero (in the rational
model the `isFinite` guard is identically true, so the stored value is the
central difference itself). -/
theorem buildGradientMap_central_difference (prims : JsPrims) (seed : ℚ) (ix iz : ℕ)
    (hix : ix < GRADIENT_MAP_RESOLUTION) (hiz : iz < GRADIENT_MAP_RESOLUTION) :
    (buildGradientMap prims.sin seed).dxMap
        ((iz : ℤ) * (GRADIENT_MAP_RESOLUTION : ℤ) + (ix : ℤ)) =
      (lossFunction prims.sin seed (gridX ix + hStep) (gridZ iz) -
       lossFunction prims.sin seed (gridX ix - hStep) (gridZ iz)) / (2 * hStep) ∧
    (buildGradientMap prims.sin seed).dzMap
        ((iz : ℤ) * (GRADIENT_MAP_RESOLUTION : ℤ) + (ix : ℤ)) =
      (lossFunction prims.sin seed (gridX ix) (gridZ iz + hStep) -
       lossFunction prims.sin seed (gridX ix) (gridZ iz - hStep)) / (2 * hStep) ∧
    gridX 0 = -(TERRAIN_WIDTH / 2) ∧
    gridX ((GRADIENT_MAP_RESOLUTION : ℤ) - 1) = TERRAIN_WIDTH / 2 ∧
    gridZ 0 = -(TERRAIN_DEPTH / 2) ∧
    gridZ ((GRADIENT_MAP_RESOLUTION : ℤ) - 1) = TERRAIN_DEPTH / 2 ∧
    hStep = 1 / 20 := by
  have hdiv : ((iz : ℤ) * (GRADIENT_MAP_RESOLUTION : ℤ) + (ix : ℤ)) /
      (GRADIENT_MAP_RESOLUTION : ℤ) = iz := by
    simp only [GRADIENT_MAP_RESOLUTION] at hix hiz ⊢
    omega
  have hmod : ((iz : ℤ) * (GRADIENT_MAP_RESOLUTION : ℤ) + (ix : ℤ)) %
      (GRADIENT_MAP_RESOLUTION : ℤ) = ix := by
    simp only [GRADIENT_MAP_RESOLUTION] at hix hiz ⊢
    omega
  refine ⟨?_, ?_, ?_, ?_, ?_, ?_, ?_⟩
  · simp only [buildGradientMap, jsFinite, if_true]
    rw [hdiv, hmod]
  · simp only [buildGradientMap, jsFinite, if_true]
    rw [hdiv, hmod]
  · norm_num [gridX, MIN_X, gridStepX, TERRAIN_WIDTH]
  · norm_num [gridX, MIN_X, MAX_X, gridStepX, TERRAIN_WIDTH, GRADIENT_MAP_RESOLUTION]
  · norm_num [gridZ, MIN_Z, gridStepZ, TERRAIN_DEPTH]
  · norm_num [gridZ, MIN_Z, MAX_Z, gridStepZ, TERRAIN_DEPTH, GRADIENT_MAP_RESOLUTION]
  · norm_num [hStep]

/-- Witness for C3 at a concrete grid cell. -/
theorem buildGradientMap_central_difference_witness :
    3 < GRADIENT_MAP_RESOLUTION ∧ 5 < GRADIENT_MAP_RESOLUTION ∧
    ((buildGradientMap prims0.sin SEED).dxMap
        ((5 : ℤ) * (GRADIENT_MAP_RESOLUTION : ℤ) + (3 : ℤ)) =
      (lossFunction prims0.sin SEED (gridX 3 + hStep) (gridZ 5) -
       lossFunction prims0.sin SEED (gridX 3 - hStep) (gridZ 5)) / (2 * hStep)) := by
  have h := buildGradientMap_central_difference prims0 SEED 3 5
    (by decide) (by decide)
  exact ⟨by decide, by decide, by exact_mod_cast h.1⟩

/-- C4: for every rational input `(x, z)` — including points arbitrarily far
outside the terrain extent — the gradient sampler's cell coordinates are
clamped so that `x0`, `x0+1`, `z0`, `z0+1` all lie within
`[0, resolution − 1]`, every flat index read lies within
`[0, resolution² − 1]`, and the sampler is the total function reading
exactly those four cells per map (so it cannot throw). -/
theorem gradient_sample_in_bounds (x z : ℚ) :
    0 ≤ gradX0 x ∧ gradX0 x + 1 ≤ (GRADIENT_MAP_RESOLUTION : ℤ) - 1 ∧
    0 ≤ gradZ0 z ∧ gradZ0 z + 1 ≤ (GRADIENT_MAP_RESOLUTION : ℤ) - 1 ∧
    0 ≤ gradZ0 z * (GRADIENT_MAP_RESOLUTION : ℤ) + gradX0 x ∧
    (gradZ0 z + 1) * (GRADIENT_MAP_RESOLUTION : ℤ) + (gradX0 x + 1) ≤
      (GRADIENT_MAP_RESOLUTION : ℤ) * (GRADIENT_MAP_RESOLUTION : ℤ) - 1 ∧
    (∀ m : GradMap, gradient (some m) x z =
      (sampleBilinear m.dxMap (gradX0 x) (gradZ0 z) (gradTx x) (gradTz z),
       sampleBilinear m.dzMap (gradX0 x) (gradZ0 z) (gradTx x) (gradTz z))) := by
  have hb : (0 : ℚ) ≤ (GRADIENT_MAP_RESOLUTION : ℚ) - 2 := by
    norm_num [GRADIENT_MAP_RESOLUTION]
  have hcx := clampQ_mem (gradGx x) 0 ((GRADIENT_MAP_RESOLUTION : ℚ) - 2) hb
  have hcz := clampQ_mem (gradGz z) 0 ((GRADIENT_MAP_RESOLUTION : ℚ) - 2) hb
  have h1 : 0 ≤ gradX0 x := Int.le_floor.mpr (by exact_mod_cast hcx.1)
  have h3 : 0 ≤ gradZ0 z := Int.le_floor.mpr (by exact_mod_cast hcz.1)
  have h2 : gradX0 x ≤ 510 := by
    have h := Int.floor_mono hcx.2
    have he : (⌊(GRADIENT_MAP_RESOLUTION : ℚ) - 2⌋ : ℤ) = 510 := by
      norm_num [GRADIENT_MAP_RESOLUTION]
    rw [he] at h
    exact h
  have h4 : gradZ0 z ≤ 510 := by
    have h := Int.floor_mono hcz.2
    have he : (⌊(GRADIENT_MAP_RESOLUTION : ℚ) - 2⌋ : ℤ) = 510 := by
      norm_num [GRADIENT_MAP_RESOLUTION]
    rw [he] at h
    exact h
  have hres : (GRADIENT_MAP_RESOLUTION : ℤ) = 512 := by norm_num [GRADIENT_MAP_RESOLUTION]
  rw [hres]
  refine ⟨h1, by omega, h3, by omega, by nlinarith, by nlinarith, ?_⟩
  intro m
  rfl

/-- A simple concrete stored map (flat index as value) used to exhibit the
out-of-extent extrapolation of the gradient sampler. -/
def mapLinear : GradMap :=
  { dxMap := fun i => (i : ℚ), dzMap := fun _ => 0,
    stepX := gridStepX, stepZ := gridStepZ }

/-- Counterexample to C9: at the out-of-extent query `x = 3000` the
interpolation weight `tx` computed by the sampler is `512`, far outside
`[0, 1]`, and the sampled value differs from the value at the nearest
in-extent point `x = 1000` — the sampler extrapolates instead of clamping
the lookup coordinates. -/
theorem gradient_extrapolates_counterexample :
    gradTx 3000 = 512 ∧ ¬ gradTx 3000 ≤ 1 ∧
    gradient (some mapLinear) 3000 0 ≠ gradient (some mapLinear) 1000 0 := by
  refine ⟨?_, ?_, ?_⟩
  · norm_num [gradTx, gradGx, gradX0, clampQ, MIN_X, MAX_X, TERRAIN_WIDTH,
      GRADIENT_MAP_RESOLUTION]
  · norm_num [gradTx, gradGx, gradX0, clampQ, MIN_X, MAX_X, TERRAIN_WIDTH,
      GRADIENT_MAP_RESOLUTION]
  · simp only [gradient, mapLinear, Prod.mk.injEq, ne_eq, not_and]
    intro h _
    revert h
    norm_num [sampleBilinear, gradTx, gradTz, gradGx, gradGz, gradX0, gradZ0, clampQ,
      MIN_X, MAX_X, MIN_Z, MAX_Z, TERRAIN_WIDTH, TERRAIN_DEPTH, GRADIENT_MAP_RESOLUTION]

/-- C9 (amended): for a query beyond the x-extent, only the integer cell
coordinate is clamped (to the boundary cell `resolution − 2`), all four
reads stay within the stored grid, but the fractional weight `tx = gx − x0`
exceeds `1`, so the returned value is the bilinear formula applied with an
out-of-range weight — a linear extrapolation of the boundary cells' stored
values rather than the value at the nearest in-extent point. -/
theorem gradient_out_of_extent_extrapolates (x z : ℚ)
    (hx : x > TERRAIN_WIDTH / 2) :
    gradX0 x = (GRADIENT_MAP_RESOLUTION : ℤ) - 2 ∧
    gradTx x > 1 ∧
    (∀ m : GradMap, gradient (some m) x z =
      (sampleBilinear m.dxMap ((GRADIENT_MAP_RESOLUTION : ℤ) - 2) (gradZ0 z)
        (gradTx x) (gradTz z),
       sampleBilinear m.dzMap ((GRADIENT_MAP_RESOLUTION : ℤ) - 2) (gradZ0 z)
        (gradTx x) (gradTz z))) := by
  have hgx : gradGx x > 511 := by
    have hx' : x > 1000 := by
      have : TERRAIN_WIDTH / 2 = 1000 := by norm_num [TERRAIN_WIDTH]
      linarith [this ▸ hx]
    have : (x - MIN_X) / (MAX_X - MIN_X) > 1 := by
      rw [gt_iff_lt, lt_div_iff (by norm_num [MIN_X, MAX_X, TERRAIN_WIDTH])]
      norm_num [MIN_X, MAX_X, TERRAIN_WIDTH]
      linarith
    have h511 : ((GRADIENT_MAP_RESOLUTION : ℚ) - 1) = 511 := by
      norm_num [GRADIENT_MAP_RESOLUTION]
    calc (511 : ℚ) = 1 * 511 := by ring
    _ < ((x - MIN_X) / (MAX_X - MIN_X)) * 511 := by
        have : (0 : ℚ) < 511 := by norm_num
        exact mul_lt_mul_of_pos_right (by linarith) this
    _ = gradGx x := by rw [gradGx, h511]
  have hclamp : clampQ (gradGx x) 0 ((GRADIENT_MAP_RESOLUTION : ℚ) - 2) =
      (GRADIENT_MAP_RESOLUTION : ℚ) - 2 := by
    have h510 : ((GRADIENT_MAP_RESOLUTION : ℚ) - 2) = 510 := by
      norm_num [GRADIENT_MAP_RESOLUTION]
    rw [clampQ, h510, min_eq_left (by linarith), max_eq_right (by norm_num)]
  have hx0 : gradX0 x = (GRADIENT_MAP_RESOLUTION : ℤ) - 2 := by
    rw [gradX0, hclamp]
    norm_num [GRADIENT_MAP_RESOLUTION]
  refine ⟨hx0, ?_, ?_⟩
  · rw [gradTx, hx0]
    have : ((GRADIENT_MAP_RESOLUTION : ℤ) - 2 : ℤ) = 510 := by
      norm_num [GRADIENT_MAP_RESOLUTION]
    rw [this]
    push_cast
    linarith
  · intro m
    rw [gradient, hx0]

/-- Witness for the amended C9 at the concrete out-of-extent point
`x = 3000`. -/
theorem gradient_out_of_extent_extrapolates_witness :
    (3000 : ℚ) > TERRAIN_WIDTH / 2 ∧
    (gradX0 3000 = (GRADIENT_MAP_RESOLUTION : ℤ) - 2 ∧ gradTx 3000 > 1) := by
  have h := gradient_out_of_extent_extrapolates 3000 0 (by norm_num [TERRAIN_WIDTH])
  exact ⟨by norm_num [TERRAIN_WIDTH], h.1, h.2.1⟩

/-! ## Particle Simulation (per-particle loop of `animate`, lines 1052–1229)

A particle's simulation-relevant state.  `scale` models the uniform mesh
scale (`mesh.scale` starts at `(1,1,1)` and is only ever multiplied by a
scalar or lerped component-wise toward a single target, so it stays
uniform); `glow`, `opacity`, `trailOpacity` model the shader uniforms
`uGlowIntensity`, `uOpacity` and the trail material's opacity.  The trail
point buffer and colors are rendering resources (render-sink, spec §6) and
are not part of the simulation state. -/

structure Particle where
  x : ℚ
  z : ℚ
  vx : ℚ
  vz : ℚ
  age : ℕ
  isFading : Bool
  scale : ℚ
  glow : ℚ
  opacity : ℚ
  trailOpacity : ℚ
deriving DecidableEq

/-- One tick of the per-particle loop body (lines 1052–1229) for a single
particle: age increment; fade shrink and removal check; physics (momentum,
gradient force, position integration) gated on not-fading and an empty
spawn queue; visibility uniforms; loss/speed-derived scale.  Returns `none`
when the particle is removed (`splice`) this tick. -/
def stepParticle (prims : JsPrims) (seed : ℚ) (mapRef : Option GradMap)
    (queue : ℕ) (frameScale : ℚ) (p0 : Particle) : Option Particle :=
  let p1 := { p0 with age := p0.age + 1 }
  let fadedScale := p1.scale * (1 - FADE_OUT_SPEED)
  if p1.isFading = true ∧ fadedScale < 1 / 100 then none
  else
    let p2 := if p1.isFading = true then
        { p1 with
          scale := fadedScale,
          trailOpacity := p1.trailOpacity * (1 - FADE_OUT_SPEED) }
      else p1
    let p3 := if p2.isFading = false ∧ queue = 0 then
        let g := gradient mapRef p2.x p2.z
        let vx := p2.vx * MOMENTUM - g.1 * LEARNING_RATE * frameScale
        let vz := p2.vz * MOMENTUM - g.2 * LEARNING_RATE * frameScale
        { p2 with
          vx := vx, vz := vz,
          x := p2.x + vx * frameScale, z := p2.z + vz * frameScale }
      else p2
    let newY := lossFunction prims.sin seed p3.x p3.z + HEIGHT_OFFSET
    let speed := prims.sqrt (p3.vx * p3.vx + p3.vz * p3.vz)
    let speedFactor := prims.pow (min (speed / (15 / 100)) 1) (12 / 10)
    let p4 := if p3.isFading = true then
        { p3 with
          glow := p3.glow * (1 - FADE_OUT_SPEED),
          opacity := p3.opacity * (1 - FADE_OUT_SPEED) }
      else if 0 < queue then
        { p3 with glow := 5 / 2, opacity := 1, trailOpacity := 8 / 10 }
      else
        let reactionFactor := min 1 (speed * REACTION_SENSITIVITY)
        { p3 with
          glow := lerpQ MIN_GLOW MAX_GLOW reactionFactor,
          opacity := lerpQ MIN_OPACITY MAX_OPACITY reactionFactor }
    let normalizedLoss := clampQ ((newY + 20) / 60) 0 1
    let lossScaleRaw := if REVERSE_SCALING = true then
        1 + prims.pow normalizedLoss SCALE_DISTRIBUTION_POWER * LOSS_SCALE_SENSITIVITY
      else
        1 + prims.pow (1 - normalizedLoss) SCALE_DISTRIBUTION_POWER * LOSS_SCALE_SENSITIVITY
    let lossScaleFactor := clampQ lossScaleRaw MIN_LOSS_SCALE MAX_LOSS_SCALE
    let baseScale := 1 + speedFactor * (5 / 10)
    let finalScale := baseScale * lossScaleFactor
    let p5 := if p4.isFading = true then
        { p4 with scale := p4.scale * (1 - FADE_OUT_SPEED) }
      else
        let lerpSpeed := if speed < 1 / 100 then (2 / 100 : ℚ) else 1 / 10
        { p4 with scale := lerpQ p4.scale finalScale lerpSpeed }
    some p5

/-- The whole per-particle loop over the live list.  The JS loop iterates
from the end of the array and `splice`s removed entries, which preserves
the relative order of survivors — i.e. it is `filterMap` of the body. -/
def particlePhase (prims : JsPrims) (seed : ℚ) (mapRef : Option GradMap)
    (queue : ℕ) (frameScale : ℚ) (ps : List Particle) : List Particle :=
  ps.filterMap (stepParticle prims seed mapRef queue frameScale)

/-- Lifting of `stepParticle` to `Option`, for iterating ticks on a single
particle (`none` = already removed). -/
def stepOpt (prims : JsPrims) (seed : ℚ) (mapRef : Option GradMap)
    (queue : ℕ) (frameScale : ℚ) : Option Particle → Option Particle :=
  fun o => o.bind (stepParticle prims seed mapRef queue frameScale)

/-! ## Theorems: Particle Simulation claims -/

/-- C2: for a non-fading particle, on a tick whose spawn queue is zero, the
velocity update is `v ← v·MOMENTUM − gradient·LEARNING_RATE·frameScale`
(momentum applied unscaled, only the gradient-force term multiplied by
`frameScale`), the position update is `pos ← pos + v·frameScale` with the
updated velocity, and the per-tick particle pass applies the body with one
single `frameScale` to every particle. -/
theorem particle_physics_update (prims : JsPrims) (seed : ℚ) (mapRef : Option GradMap)
    (frameScale : ℚ) (p : Particle) (hf : p.isFading = false) :
    (∃ p', stepParticle prims seed mapRef 0 frameScale p = some p' ∧
      p'.vx = p.vx * MOMENTUM - (gradient mapRef p.x p.z).1 * LEARNING_RATE * frameScale ∧
      p'.vz = p.vz * MOMENTUM - (gradient mapRef p.x p.z).2 * LEARNING_RATE * frameScale ∧
      p'.x = p.x + p'.vx * frameScale ∧
      p'.z = p.z + p'.vz * frameScale) ∧
    (∀ ps : List Particle,
      particlePhase prims seed mapRef 0 frameScale ps =
        ps.filterMap (stepParticle prims seed mapRef 0 frameScale)) := by
  constructor
  · have hne : (stepParticle prims seed mapRef 0 frameScale p).isSome = true := by
      simp [stepParticle, hf]
    obtain ⟨p', hp'⟩ := Option.isSome_iff_exists.mp hne
    refine ⟨p', hp', ?_⟩
    have h1 := hp'
    simp only [stepParticle, hf] at h1
    simp only [Bool.false_eq_true, false_and, if_false, if_neg, ite_false,
      and_true, eq_self_iff_true, if_true] at h1
    rw [Option.some_inj] at h1
    subst h1
    simp [hf]
  · intro ps
    rfl

/-- A concrete active (non-fading) particle. -/
def activeP : Particle :=
  { x := 0, z := 0, vx := 1, vz := 0, age := 0, isFading := false,
    scale := 1, glow := 1, opacity := 1, trailOpacity := 1 }

/-- Witness for C2 at a concrete particle. -/
theorem particle_physics_update_witness :
    activeP.isFading = false ∧
    ((∃ p', stepParticle prims0 SEED none 0 1 activeP = some p' ∧
      p'.vx = activeP.vx * MOMENTUM -
        (gradient none activeP.x activeP.z).1 * LEARNING_RATE * 1 ∧
      p'.vz = activeP.vz * MOMENTUM -
        (gradient none activeP.x activeP.z).2 * LEARNING_RATE * 1 ∧
      p'.x = activeP.x + p'.vx * 1 ∧
      p'.z = activeP.z + p'.vz * 1) ∧
    (∀ ps : List Particle,
      particlePhase prims0 SEED none 0 1 ps =
        ps.filterMap (stepParticle prims0 SEED none 0 1))) :=
  ⟨rfl, particle_physics_update prims0 SEED none 1 activeP rfl⟩

/-- Helper: a fading particle is removed by the step exactly when its
once-shrunk scale falls below `0.01`. -/
theorem fadeStep_none_iff (prims : JsPrims) (seed : ℚ) (mapRef : Option GradMap)
    (queue : ℕ) (frameScale : ℚ) (p : Particle) (hf : p.isFading = true) :
    stepParticle prims seed mapRef queue frameScale p = none ↔
      p.scale * (1 - FADE_OUT_SPEED) < 1 / 100 := by
  constructor
  · intro h
    by_contra hlt
    simp only [stepParticle, hf] at h
    rw [if_neg (fun hc => hlt hc.2)] at h
    exact Option.noConfusion h
  · intro hlt
    simp only [stepParticle, hf]
    rw [if_pos ⟨trivial, hlt⟩]

/-- Helper: a fading particle that survives the step stays fading, has its
scale multiplied by `(1 − FADE_OUT_SPEED)` twice (once in the fade block,
once in the scale block), and its age incremented. -/
theorem fadeStep_some (prims : JsPrims) (seed : ℚ) (mapRef : Option GradMap)
    (queue : ℕ) (frameScale : ℚ) (p p' : Particle) (hf : p.isFading = true)
    (h : stepParticle prims seed mapRef queue frameScale p = some p') :
    p'.isFading = true ∧
    p'.scale = p.scale * ((1 - FADE_OUT_SPEED) * (1 - FADE_OUT_SPEED)) ∧
    p'.age = p.age + 1 := by
  by_cases hlt : p.scale * (1 - FADE_OUT_SPEED) < 1 / 100
  · exfalso
    rw [(fadeStep_none_iff prims seed mapRef queue frameScale p hf).mpr hlt] at h
    exact Option.noConfusion h
  · simp only [stepParticle, hf] at h
    rw [if_neg (fun hc => hlt hc.2)] at h
    simp at h
    subst h
    refine ⟨by simp, by simp; ring, by simp⟩

/-- Helper: iterating the step on a fading particle either has removed it
by tick `k` or has multiplied its scale by the per-tick factor `k` times,
keeping it fading throughout. -/
theorem fade_iterate (prims : JsPrims) (seed : ℚ) (mapRef : Option GradMap)
    (queue : ℕ) (frameScale : ℚ) (p : Particle) (hf : p.isFading = true) :
    ∀ k : ℕ, (stepOpt prims seed mapRef queue frameScale)^[k] (some p) = none ∨
      ∃ q, (stepOpt prims seed mapRef queue frameScale)^[k] (some p) = some q ∧
        q.isFading = true ∧
        q.scale = p.scale * ((1 - FADE_OUT_SPEED) * (1 - FADE_OUT_SPEED)) ^ k := by
  intro k
  induction k with
  | zero =>
    right
    exact ⟨p, rfl, hf, by simp⟩
  | succ n ih =>
    rw [Function.iterate_succ_apply']
    rcases ih with h | ⟨q, hq, hqf, hqs⟩
    · left
      rw [h]
      rfl
    · rw [hq]
      rcases hstep : stepParticle prims seed mapRef queue frameScale q with _ | q'
      · left
        simp [stepOpt, hstep]
      · right
        obtain ⟨hq'f, hq's, _⟩ :=
          fadeStep_some prims seed mapRef queue frameScale q q' hqf hstep
        refine ⟨q', by simp [stepOpt, hstep], hq'f, ?_⟩
        rw [hq's, hqs]
        ring

/-- C8 (amended): once a particle is flagged fading it never returns to
active; it is removed exactly when the once-shrunk scale drops below
`0.01`; on every tick it survives, its scale shrinks by the factor
`(1 − FADE_OUT_SPEED)` twice — a net per-tick factor
`(1 − FADE_OUT_SPEED)²` — and it is removed after a bounded number of
ticks, never to be resurrected. -/
theorem fading_particle_lifecycle (prims : JsPrims) (seed : ℚ) (mapRef : Option GradMap)
    (queue : ℕ) (frameScale : ℚ) (p : Particle) (hf : p.isFading = true) :
    (stepParticle prims seed mapRef queue frameScale p = none ↔
      p.scale * (1 - FADE_OUT_SPEED) < 1 / 100) ∧
    (∀ p', stepParticle prims seed mapRef queue frameScale p = some p' →
      p'.isFading = true ∧
      p'.scale = p.scale * ((1 - FADE_OUT_SPEED) * (1 - FADE_OUT_SPEED))) ∧
    (∀ k p', (stepOpt prims seed mapRef queue frameScale)^[k] (some p) = some p' →
      p'.isFading = true) ∧
    (∃ m, (stepOpt prims seed mapRef queue frameScale)^[m] (some p) = none) := by
  refine ⟨fadeStep_none_iff prims seed mapRef queue frameScale p hf,
    fun p' h => ⟨(fadeStep_some prims seed mapRef queue frameScale p p' hf h).1,
      (fadeStep_some prims seed mapRef queue frameScale p p' hf h).2.1⟩, ?_, ?_⟩
  · intro k p' h
    rcases fade_iterate prims seed mapRef queue frameScale p hf k with hn | ⟨q, hq, hqf, _⟩
    · rw [hn] at h
      exact Option.noConfusion h
    · rw [hq, Option.some_inj] at h
      subst h
      exact hqf
  · by_cases hpos : 0 < p.scale
    · set r : ℚ := (1 - FADE_OUT_SPEED) * (1 - FADE_OUT_SPEED) with hr
      set k : ℕ := (⌈(2401 : ℚ) * p.scale⌉).toNat with hk
      have hkge : (2401 : ℚ) * p.scale ≤ (k : ℚ) := by
        calc (2401 : ℚ) * p.scale ≤ (⌈(2401 : ℚ) * p.scale⌉ : ℚ) := Int.le_ceil _
        _ ≤ ((⌈(2401 : ℚ) * p.scale⌉.toNat : ℤ) : ℚ) := by
            exact_mod_cast Int.self_le_toNat _
        _ = (k : ℚ) := by push_cast [hk]; ring
      have hrval : r = 2401 / 2500 := by norm_num [hr, FADE_OUT_SPEED]
      have hrpow : r ^ k ≤ 1 / (1 + (k : ℚ) * (99 / 2401)) := by
        have hden : (0 : ℚ) < 1 + (k : ℚ) * (99 / 2401) := by positivity
        have hbern : 1 + (k : ℚ) * (99 / 2401) ≤ (1 + (99 / 2401 : ℚ)) ^ k :=
          one_add_mul_le_pow (by norm_num) k
        have hprod : r ^ k * (1 + (99 / 2401 : ℚ)) ^ k = 1 := by
          rw [← mul_pow, hrval]
          norm_num
        have hreq : r ^ k = 1 / (1 + (99 / 2401 : ℚ)) ^ k :=
          eq_one_div_of_mul_eq_one_left hprod
        rw [hreq]
        exact one_div_le_one_div_of_le hden hbern
      have hsmall : p.scale * r ^ k < 1 / 98 := by
        have h1 : p.scale * r ^ k ≤ p.scale * (1 / (1 + (k : ℚ) * (99 / 2401))) :=
          mul_le_mul_of_nonneg_left hrpow (le_of_lt hpos)
        have hden : (0 : ℚ) < 1 + (k : ℚ) * (99 / 2401) := by positivity
        have h2 : p.scale * (1 / (1 + (k : ℚ) * (99 / 2401))) < 1 / 98 := by
          rw [mul_one_div, div_lt_div_iff hden (by norm_num)]
          nlinarith
        linarith
      rcases fade_iterate prims seed mapRef queue frameScale p hf k with hn | ⟨q, hq, hqf, hqs⟩
      · exact ⟨k, hn⟩
      · refine ⟨k + 1, ?_⟩
        rw [Function.iterate_succ_apply', hq]
        have : stepParticle prims seed mapRef queue frameScale q = none := by
          rw [fadeStep_none_iff prims seed mapRef queue frameScale q hqf]
          rw [hqs, ← hr]
          have hfs : (1 - FADE_OUT_SPEED : ℚ) = 49 / 50 := by norm_num [FADE_OUT_SPEED]
          rw [hfs]
          calc p.scale * r ^ k * (49 / 50) < (1 / 98) * (49 / 50) :=
                mul_lt_mul_of_pos_right hsmall (by norm_num)
          _ = 1 / 100 := by norm_num
        simp [stepOpt, this]
    · refine ⟨1, ?_⟩
      rw [Function.iterate_one]
      have : stepParticle prims seed mapRef queue frameScale p = none := by
        rw [fadeStep_none_iff prims seed mapRef queue frameScale p hf]
        have : p.scale ≤ 0 := le_of_not_lt hpos
        nlinarith [show (0:ℚ) < 1 - FADE_OUT_SPEED by norm_num [FADE_OUT_SPEED]]
      simp [stepOpt, this]

/-- A concrete fading particle with scale `1`. -/
def fadingP : Particle :=
  { x := 0, z := 0, vx := 0, vz := 0, age := 0, isFading := true,
    scale := 1, glow := 1, opacity := 1, trailOpacity := 1 }

/-- Counterexample to C8 as stated: a fading particle with scale `1`
survives the tick with scale `(1 − FADE_OUT_SPEED)² = 2401/2500`, not the
claimed single factor `1 − FADE_OUT_SPEED = 49/50` — the shrink is applied
twice per tick (fade block and scale block). -/
theorem fading_double_shrink_counterexample :
    (stepParticle prims0 SEED none 0 1 fadingP).map Particle.scale =
      some (2401 / 2500) ∧
    ((2401 / 2500 : ℚ) ≠ 1 - FADE_OUT_SPEED) := by
  constructor
  · simp [stepParticle, fadingP, FADE_OUT_SPEED]
    norm_num
  · norm_num [FADE_OUT_SPEED]

/-- Witness for the amended C8 at the concrete fading particle. -/
theorem fading_particle_lifecycle_witness :
    fadingP.isFading = true ∧
    ((stepParticle prims0 SEED none 0 1 fadingP = none ↔
      fadingP.scale * (1 - FADE_OUT_SPEED) < 1 / 100) ∧
    (∀ p', stepParticle prims0 SEED none 0 1 fadingP = some p' →
      p'.isFading = true ∧
      p'.scale = fadingP.scale * ((1 - FADE_OUT_SPEED) * (1 - FADE_OUT_SPEED))) ∧
    (∀ k p', (stepOpt prims0 SEED none 0 1)^[k] (some fadingP) = some p' →
      p'.isFading = true) ∧
    (∃ m, (stepOpt prims0 SEED none 0 1)^[m] (some fadingP) = none)) :=
  ⟨rfl, fading_particle_lifecycle prims0 SEED none 0 1 fadingP rfl⟩

/-- Helper: a non-fading particle always survives the step, with its age
incremented and its fading flag still clear (the per-particle step never
sets `isFading`; only the wave scheduler does). -/
theorem stepParticle_not_fading (prims : JsPrims) (seed : ℚ) (mapRef : Option GradMap)
    (queue : ℕ) (frameScale : ℚ) (p : Particle) (hf : p.isFading = false) :
    ∃ p', stepParticle prims seed mapRef queue frameScale p = some p' ∧
      p'.age = p.age + 1 ∧ p'.isFading = false := by
  have hne : (stepParticle prims seed mapRef queue frameScale p).isSome = true := by
    simp [stepParticle, hf]
  obtain ⟨p', hp'⟩ := Option.isSome_iff_exists.mp hne
  refine ⟨p', hp', ?_⟩
  have h1 := hp'
  simp only [stepParticle, hf, Bool.false_eq_true, false_and, ite_false,
    eq_self_iff_true, true_and, if_false] at h1
  rw [Option.some_inj] at h1
  subst h1
  constructor
  · split_ifs <;> rfl
  · split_ifs <;> rfl

/-- C10: a particle is removed only through the fading path (`isFading`
true and shrunk scale below `0.01`); age increments every tick in every
phase; the removal decision is independent of age; and a non-fading
particle at or beyond `MAX_AGE` is neither removed nor faded — the
configured `MAX_AGE` lifespan is not enforced by the per-particle
simulation step. -/
theorem age_never_enforced (prims : JsPrims) (seed : ℚ) (mapRef : Option GradMap)
    (queue : ℕ) (frameScale : ℚ) (p : Particle) :
    (stepParticle prims seed mapRef queue frameScale p = none →
      p.isFading = true ∧ p.scale * (1 - FADE_OUT_SPEED) < 1 / 100) ∧
    (∀ p', stepParticle prims seed mapRef queue frameScale p = some p' →
      p'.age = p.age + 1 ∧ p'.isFading = p.isFading) ∧
    (∀ a1 a2 : ℕ,
      (stepParticle prims seed mapRef queue frameScale { p with age := a1 }).isSome =
        (stepParticle prims seed mapRef queue frameScale { p with age := a2 }).isSome) ∧
    (p.isFading = false → MAX_AGE ≤ p.age →
      ∃ p', stepParticle prims seed mapRef queue frameScale p = some p' ∧
        p'.isFading = false) := by
  refine ⟨?_, ?_, ?_, ?_⟩
  · intro h
    rcases Bool.eq_false_or_eq_true p.isFading with hf | hf
    · exact ⟨hf, (fadeStep_none_iff prims seed mapRef queue frameScale p hf).mp h⟩
    · have hne : (stepParticle prims seed mapRef queue frameScale p).isSome = true := by
        simp [stepParticle, hf]
      rw [h] at hne
      exact Bool.noConfusion hne
  · intro p' h
    rcases Bool.eq_false_or_eq_true p.isFading with hf | hf
    · obtain ⟨h1, _, h3⟩ := fadeStep_some prims seed mapRef queue frameScale p p' hf h
      exact ⟨h3, by rw [h1, hf]⟩
    · obtain ⟨q, hq, hqa, hqf⟩ :=
        stepParticle_not_fading prims seed mapRef queue frameScale p hf
      rw [hq, Option.some_inj] at h
      subst h
      exact ⟨hqa, by rw [hqf, hf]⟩
  · intro a1 a2
    rcases Bool.eq_false_or_eq_true p.isFading with hf | hf
    case inr =>
      have h1 : (stepParticle prims seed mapRef queue frameScale
          { p with age := a1 }).isSome = true := by
        simp [stepParticle, hf]
      have h2 : (stepParticle prims seed mapRef queue frameScale
          { p with age := a2 }).isSome = true := by
        simp [stepParticle, hf]
      rw [h1, h2]
    case inl =>
      by_cases hlt : p.scale * (1 - FADE_OUT_SPEED) < 1 / 100
      · have h1 := (fadeStep_none_iff prims seed mapRef queue frameScale
          { p with age := a1 } hf).mpr hlt
        have h2 := (fadeStep_none_iff prims seed mapRef queue frameScale
          { p with age := a2 } hf).mpr hlt
        rw [h1, h2]
      · rcases hs1 : stepParticle prims seed mapRef queue frameScale
            { p with age := a1 } with _ | q1
        · exact absurd ((fadeStep_none_iff prims seed mapRef queue frameScale
            { p with age := a1 } hf).mp hs1) hlt
        · rcases hs2 : stepParticle prims seed mapRef queue frameScale
              { p with age := a2 } with _ | q2
          · exact absurd ((fadeStep_none_iff prims seed mapRef queue frameScale
              { p with age := a2 } hf).mp hs2) hlt
          · simp
  · intro hf _
    obtain ⟨p', hp', _, hpf⟩ :=
      stepParticle_not_fading prims seed mapRef queue frameScale p hf
    exact ⟨p', hp', hpf⟩

/-- A concrete non-fading particle far beyond the configured `MAX_AGE`. -/
def oldP : Particle :=
  { x := 0, z := 0, vx := 0, vz := 0, age := 1500, isFading := false,
    scale := 1, glow := 1, opacity := 1, trailOpacity := 1 }

/-- Witness for C10: a non-fading particle aged past `MAX_AGE` survives the
step without fading. -/
theorem age_never_enforced_witness :
    oldP.isFading = false ∧ MAX_AGE ≤ oldP.age ∧
    (∃ p', stepParticle prims0 SEED none 0 1 oldP = some p' ∧
      p'.isFading = false) :=
  ⟨rfl, by decide,
    (age_never_enforced prims0 SEED none 0 1 oldP).2.2.2 rfl (by decide)⟩

/-! ## Wave Scheduler and Spawn-Site Selector (`animate`, lines 878–1018) -/

/-- The wave state machine's states (`waveStateRef`). -/
inductive WaveState where
  | WAITING
  | SWELLING
  | ACTIVE
deriving DecidableEq

/-- The scheduler's mutable state: `waveStateRef`, `stateStartTimeRef`,
`lastWaveTimeRef`, `spawnQueueRef`, and the wireframe material opacity. -/
structure SchedState where
  wave : WaveState
  stateStart : ℚ
  lastWave : ℚ
  queue : ℕ
  wireOpacity : ℚ
deriving DecidableEq

/-- One random draw of the spawn loop, resolved through the external
ground-intersection collaborator: the ground-plane raycast either misses
(`none`) or yields a world point `(x, z)` on the plane. -/
structure Candidate where
  hit : Option (ℚ × ℚ)
deriving DecidableEq

/-- Camera world position (used by the spawn visibility check). -/
structure Cam where
  x : ℚ
  y : ℚ
  z : ℚ
deriving DecidableEq

/-- The running state of the spawn loop: loop index `i`, remaining spawn
queue, `lastWaveTimeRef`, and the particles placed so far this tick. -/
structure SpawnSt where
  i : ℕ
  queue : ℕ
  lastWave : ℚ
  spawned : List Particle
deriving DecidableEq

/-- A freshly spawned particle (`spawnParticle`): zero velocity, age 0,
active, unit scale, the cloned shader uniforms (`uGlowIntensity = 1.5`,
`uOpacity = 1`) and trail opacity `0.8`.  The mesh is placed at
`(x, ·, −z)`, so the stored simulation `z` is the negated hit `z`. -/
def freshParticle (x z : ℚ) : Particle :=
  { x := x, z := z, vx := 0, vz := 0, age := 0, isFading := false,
    scale := 1, glow := 3 / 2, opacity := 1, trailOpacity := 8 / 10 }

/-- The coarse line-of-sight check (lines 915–925): three interpolated
points at `t = 0.3, 0.6, 0.9` between the camera and the candidate; the
point is visible when no sample of the height field rises more than `2`
above the interpolated sight line. -/
def spawnVisible (sine : ℚ → ℚ) (seed : ℚ) (cam : Cam) (hx hz realHeight : ℚ) : Bool :=
  decide (¬ lossFunction sine seed (lerpQ cam.x hx (3 / 10)) (lerpQ cam.z hz (3 / 10)) >
      lerpQ cam.y realHeight (3 / 10) + 2) &&
  decide (¬ lossFunction sine seed (lerpQ cam.x hx (6 / 10)) (lerpQ cam.z hz (6 / 10)) >
      lerpQ cam.y realHeight (6 / 10) + 2) &&
  decide (¬ lossFunction sine seed (lerpQ cam.x hx (9 / 10)) (lerpQ cam.z hz (9 / 10)) >
      lerpQ cam.y realHeight (9 / 10) + 2)

/-- One iteration of the spawn loop body (lines 882–941) on one candidate
draw.  A ray miss or an out-of-bounds hit leaves the slot consumed
(`i + 1`, plain loop continue); a hit below `MIN_SPAWN_HEIGHT` or an
occluded hit executes `i--; continue`, leaving the state unchanged (the
slot is retried); a visible valid hit spawns a particle, decrements the
queue, and records `lastWaveTimeRef` when the queue reaches zero. -/
def spawnIter (sine : ℚ → ℚ) (seed : ℚ) (cam : Cam) (tNow : ℚ) (c : Candidate)
    (st : SpawnSt) : SpawnSt :=
  match c.hit with
  | none => { st with i := st.i + 1 }
  | some (hx, hz) =>
    if |hx| ≤ TERRAIN_WIDTH / 2 ∧ |hz| ≤ TERRAIN_DEPTH / 2 then
      let realHeight := lossFunction sine seed hx hz
      if realHeight < MIN_SPAWN_HEIGHT then st
      else if spawnVisible sine seed cam hx hz realHeight = true then
        { st with
          i := st.i + 1,
          queue := st.queue - 1,
          lastWave := if st.queue = 1 then tNow else st.lastWave,
          spawned := st.spawned ++ [freshParticle hx (-hz)] }
      else st
    else { st with i := st.i + 1 }

/-- The spawn loop `for (let i = 0; i < toSpawn; i++)` consuming one random
draw per executed iteration.  The candidate list is the supply of draws
this tick; the JS loop would draw indefinitely, so exhausting the list with
`i` still below `toSpawn` represents an unfinished loop. -/
def spawnLoop (sine : ℚ → ℚ) (seed : ℚ) (cam : Cam) (tNow : ℚ) (toSpawn : ℕ) :
    List Candidate → SpawnSt → SpawnSt
  | [], st => st
  | c :: cs, st =>
    if st.i < toSpawn then
      spawnLoop sine seed cam tNow toSpawn cs (spawnIter sine seed cam tNow c st)
    else st

/-- The spawn phase of one tick (lines 878–942): only runs when the spawn
queue is positive, with per-tick batch `toSpawn = min(queue, BATCH_SIZE)`. -/
def spawnPhase (sine : ℚ → ℚ) (seed : ℚ) (cam : Cam) (tNow : ℚ) (queue : ℕ)
    (lastWave : ℚ) (cands : List Candidate) : SpawnSt :=
  if 0 < queue then
    spawnLoop sine seed cam tNow (min queue BATCH_SIZE) cands
      { i := 0, queue := queue, lastWave := lastWave, spawned := [] }
  else { i := 0, queue := queue, lastWave := lastWave, spawned := [] }

/-- `speed < VELOCITY_THRESHOLD && age > 100` for one particle
(line 969–972), with `speed = Math.sqrt(vx·vx + vz·vz)`. -/
def particleStopped (prims : JsPrims) (p : Particle) : Bool :=
  decide (prims.sqrt (p.vx * p.vx + p.vz * p.vz) < VELOCITY_THRESHOLD) &&
    decide (100 < p.age)

/-- `allParticlesStopped` (lines 966–973): the queue must be drained, the
active (non-fading) set non-empty, and every active particle stopped. -/
def allParticlesStopped (prims : JsPrims) (queue : ℕ) (ps : List Particle) : Bool :=
  let activeParticles := ps.filter (fun p => !p.isFading)
  decide (¬ 0 < queue) && decide (0 < activeParticles.length) &&
    activeParticles.all (particleStopped prims)

/-- The wave state machine transitions (lines 976–1005), three sequential
`if`s per tick.  The `ACTIVE` branch shadows `currentTime` with
`performance.now() / 1000` (`tNow`, the wall clock); the `WAITING` and
`SWELLING` checks use the outer `currentTime` (`tAcc`, the `timeRef`
accumulated-seconds clock). -/
def waveTransitions (prims : JsPrims) (tNow tAcc : ℚ) (s : SchedState)
    (ps : List Particle) : SchedState × List Particle :=
  let step1 :=
    if s.wave = WaveState.ACTIVE ∧ s.queue = 0 ∧
        (allParticlesStopped prims s.queue ps = true ∨
          tNow - s.lastWave > MAX_WAVE_INTERVAL) then
      ({ s with wave := WaveState.WAITING, stateStart := tNow },
       ps.map (fun p => { p with isFading := true }))
    else (s, ps)
  let s1 := step1.1
  let s2 :=
    if s1.wave = WaveState.WAITING ∧ tAcc - s1.stateStart > BUFFER_TIME then
      { s1 with wave := WaveState.SWELLING, stateStart := tAcc }
    else s1
  let s3 :=
    if s2.wave = WaveState.SWELLING ∧ tAcc - s2.stateStart > SWELL_TIME then
      { s2 with
        wave := WaveState.ACTIVE,
        queue := PARTICLES_PER_WAVE,
        wireOpacity := MAX_SWELL_OPACITY }
    else s2
  (s3, step1.2)

/-- The wireframe opacity sync (lines 1008–1018): while `SWELLING`, ease
from base toward peak along a squared progress curve; otherwise decay
exponentially back toward the base opacity. -/
def opacityEase (tAcc : ℚ) (s : SchedState) : SchedState :=
  if s.wave = WaveState.SWELLING then
    let progress := (tAcc - s.stateStart) / SWELL_TIME
    let eased := progress ^ 2
    { s with wireOpacity := lerpQ WIREFRAME_OPACITY MAX_SWELL_OPACITY eased }
  else if s.wireOpacity > WIREFRAME_OPACITY then
    { s with wireOpacity := s.wireOpacity - (s.wireOpacity - WIREFRAME_OPACITY) * FLASH_DECAY }
  else s

/-- The full simulation state: scheduler refs plus the live particle list. -/
structure SysState where
  sched : SchedState
  parts : List Particle
deriving DecidableEq

/-- One whole `animate` tick restricted to the simulation core, in source
order: spawn phase (lines 878–942), wave state machine and opacity sync
(962–1018), then the per-particle loop (1052–1229).  `tNow` is
`performance.now()/1000`, `tAcc` is the accumulated `timeRef` clock,
`frameScale` is the frame-time scale computed once per tick and shared by
all particles. -/
def animateTick (prims : JsPrims) (seed : ℚ) (mapRef : Option GradMap) (cam : Cam)
    (tNow tAcc frameScale : ℚ) (cands : List Candidate) (st : SysState) : SysState :=
  let sp := spawnPhase prims.sin seed cam tNow st.sched.queue st.sched.lastWave cands
  let ps1 := st.parts ++ sp.spawned
  let schedMid := { st.sched with queue := sp.queue, lastWave := sp.lastWave }
  let wt := waveTransitions prims tNow tAcc schedMid ps1
  let s3 := opacityEase tAcc wt.1
  { sched := s3, parts := particlePhase prims seed mapRef s3.queue frameScale wt.2 }

/-! ## Theorems: Wave Scheduler claims -/

/-- Constructor disequalities of `WaveState`, for rewriting transition
guards. -/
theorem waiting_ne_active : (WaveState.WAITING = WaveState.ACTIVE) = False :=
  eq_false (fun h => WaveState.noConfusion h)

/-- Constructor disequality of `WaveState`. -/
theorem swelling_ne_active : (WaveState.SWELLING = WaveState.ACTIVE) = False :=
  eq_false (fun h => WaveState.noConfusion h)

/-- Constructor disequality of `WaveState`. -/
theorem waiting_ne_swelling : (WaveState.WAITING = WaveState.SWELLING) = False :=
  eq_false (fun h => WaveState.noConfusion h)

/-- Constructor disequality of `WaveState`. -/
theorem swelling_ne_waiting : (WaveState.SWELLING = WaveState.WAITING) = False :=
  eq_false (fun h => WaveState.noConfusion h)

/-- Constructor disequality of `WaveState`. -/
theorem active_ne_waiting : (WaveState.ACTIVE = WaveState.WAITING) = False :=
  eq_false (fun h => WaveState.noConfusion h)

/-- Constructor disequality of `WaveState`. -/
theorem active_ne_swelling : (WaveState.ACTIVE = WaveState.SWELLING) = False :=
  eq_false (fun h => WaveState.noConfusion h)

/-- The opacity sync never touches the wave, timestamps or queue. -/
theorem opacityEase_preserves (tAcc : ℚ) (s : SchedState) :
    (opacityEase tAcc s).wave = s.wave ∧
    (opacityEase tAcc s).stateStart = s.stateStart ∧
    (opacityEase tAcc s).queue = s.queue ∧
    (opacityEase tAcc s).lastWave = s.lastWave := by
  unfold opacityEase
  split_ifs <;> simp

/-- C6 (amended): `WAITING → SWELLING` fires exactly when the accumulated
clock (`timeRef`) has advanced more than `BUFFER_TIME` past the recorded
entry timestamp, and `SWELLING → ACTIVE` exactly when it has advanced more
than `SWELL_TIME` past it; on the latter the spawn queue is set to
`PARTICLES_PER_WAVE` and the wireframe opacity snapped to
`MAX_SWELL_OPACITY`.  The clocks are *not* consistent: the
`ACTIVE → WAITING` transition records its entry timestamp from the wall
clock `tNow` (`performance.now()/1000`) while the `WAITING` check reads the
accumulated clock `tAcc`. -/
theorem wave_transition_timing (prims : JsPrims) (tNow tAcc : ℚ) (s : SchedState)
    (ps : List Particle) :
    (s.wave = WaveState.WAITING →
      ((waveTransitions prims tNow tAcc s ps).1.wave = WaveState.SWELLING ↔
        tAcc - s.stateStart > BUFFER_TIME) ∧
      (tAcc - s.stateStart > BUFFER_TIME →
        (waveTransitions prims tNow tAcc s ps).1.stateStart = tAcc)) ∧
    (s.wave = WaveState.SWELLING →
      ((waveTransitions prims tNow tAcc s ps).1.wave = WaveState.ACTIVE ↔
        tAcc - s.stateStart > SWELL_TIME) ∧
      (tAcc - s.stateStart > SWELL_TIME →
        (waveTransitions prims tNow tAcc s ps).1.queue = PARTICLES_PER_WAVE ∧
        (waveTransitions prims tNow tAcc s ps).1.wireOpacity = MAX_SWELL_OPACITY)) ∧
    (s.wave = WaveState.ACTIVE → s.queue = 0 →
      (allParticlesStopped prims s.queue ps = true ∨
        tNow - s.lastWave > MAX_WAVE_INTERVAL) →
      tAcc ≤ tNow →
      (waveTransitions prims tNow tAcc s ps).1.wave = WaveState.WAITING ∧
      (waveTransitions prims tNow tAcc s ps).1.stateStart = tNow) := by
  refine ⟨?_, ?_, ?_⟩
  · intro hw
    by_cases hbuf : tAcc - s.stateStart > BUFFER_TIME
    · constructor
      · rw [iff_true_intro hbuf, iff_true]
        norm_num [waveTransitions, hw, hbuf, SWELL_TIME, waiting_ne_active,
          waiting_ne_swelling, swelling_ne_waiting, swelling_ne_active]
      · intro _
        norm_num [waveTransitions, hw, hbuf, SWELL_TIME, waiting_ne_active,
          waiting_ne_swelling, swelling_ne_waiting, swelling_ne_active]
    · constructor
      · rw [iff_false_intro hbuf]
        norm_num [waveTransitions, hw, hbuf, waiting_ne_active, waiting_ne_swelling]
      · intro h
        exact absurd h hbuf
  · intro hw
    by_cases hsw : tAcc - s.stateStart > SWELL_TIME
    · constructor
      · rw [iff_true_intro hsw, iff_true]
        norm_num [waveTransitions, hw, hsw, swelling_ne_active, swelling_ne_waiting]
      · intro _
        constructor <;>
          norm_num [waveTransitions, hw, hsw, swelling_ne_active, swelling_ne_waiting]
    · constructor
      · rw [iff_false_intro hsw]
        norm_num [waveTransitions, hw, hsw, swelling_ne_active, swelling_ne_waiting]
      · intro h
        exact absurd h hsw
  · intro hw hq hcond hta
    have hnb : ¬ (tAcc - tNow > BUFFER_TIME) := by
      norm_num [BUFFER_TIME]
      linarith
    rw [hq] at hcond
    rcases hcond with hstop | htime
    · constructor <;>
        norm_num [waveTransitions, hw, hq, hstop, hnb, active_ne_waiting,
          active_ne_swelling, waiting_ne_swelling]
    · constructor <;>
        norm_num [waveTransitions, hw, hq, htime, hnb, active_ne_waiting,
          active_ne_swelling, waiting_ne_swelling]

/-- A scheduler state sitting in `ACTIVE` with a drained queue. -/
def schedActiveCE : SchedState :=
  { wave := WaveState.ACTIVE, stateStart := 0, lastWave := 0, queue := 0,
    wireOpacity := 7 / 100 }

/-- Counterexample to C6 as stated: with the wall clock at `15.5 s` and the
accumulated clock at `5.5 s` (the page mounted 10 s after navigation
start), the wave times out of `ACTIVE` and enters `WAITING` with its entry
timestamp recorded from the *wall* clock; two seconds later — more than
`BUFFER_TIME` after entering `WAITING` on every physical clock — the
scheduler is still `WAITING`, because the `WAITING` check compares the
accumulated clock against the wall-clock timestamp. -/
theorem mixed_clock_counterexample :
    (waveTransitions prims0 (31 / 2) (11 / 2) schedActiveCE []).1.wave =
      WaveState.WAITING ∧
    (15 / 2 : ℚ) - 11 / 2 > BUFFER_TIME ∧
    (waveTransitions prims0 (35 / 2) (15 / 2)
        (waveTransitions prims0 (31 / 2) (11 / 2) schedActiveCE []).1 []).1.wave =
      WaveState.WAITING := by
  refine ⟨?_, by norm_num [BUFFER_TIME], ?_⟩ <;>
    norm_num [waveTransitions, schedActiveCE, allParticlesStopped, particleStopped,
      MAX_WAVE_INTERVAL, BUFFER_TIME, SWELL_TIME, waiting_ne_active,
      waiting_ne_swelling, swelling_ne_waiting, swelling_ne_active,
      active_ne_waiting, active_ne_swelling]

/-- Witness for the amended C6: a `WAITING` state whose buffer has elapsed
on the accumulated clock transitions to `SWELLING`. -/
theorem wave_transition_timing_witness :
    (waveTransitions prims0 10 5
        { wave := WaveState.WAITING, stateStart := 0, lastWave := 0, queue := 0,
          wireOpacity := 7 / 100 } []).1.wave = WaveState.SWELLING :=
  ((wave_transition_timing prims0 10 5
      { wave := WaveState.WAITING, stateStart := 0, lastWave := 0, queue := 0,
        wireOpacity := 7 / 100 } []).1 rfl).1.mpr (by norm_num [BUFFER_TIME])

/-! ## Theorems: Spawn-Site Selector claims -/

/-- With the trivial sine primitive the whole terrain evaluates to the
constant `-36` (every hash is `0`, every ridged octave contributes `0`,
and `(0 - 12) * HEIGHT_MULTIPLIER = -36`), which lies below
`MIN_SPAWN_HEIGHT = 0` everywhere. -/
theorem lossFunction_zero_sine (seed x z : ℚ) :
    lossFunction prims0.sin seed x z = -36 := by
  have hnoise : ∀ tx tz : ℚ, noiseTerrain prims0.sin seed tx tz = 0 := by
    intro tx tz
    simp [noiseTerrain, hashTerrain, jsFract, lerpQ, prims0]
  have hstep : ∀ st : ℚ × ℚ × ℚ, fbmStep prims0.sin seed x z st =
      (st.1, st.2.1 * 0.55, st.2.2 * 2.1) := by
    intro st
    simp [fbmStep, hnoise]
  have hiter : ∀ (n : ℕ) (a f : ℚ),
      ((fbmStep prims0.sin seed x z)^[n] (0, a, f)).1 = 0 := by
    intro n
    induction n with
    | zero =>
      intro a f
      rfl
    | succ m ih =>
      intro a f
      rw [Function.iterate_succ_apply, hstep]
      exact ih _ _
  rw [lossFunction, hiter]
  norm_num [HEIGHT_MULTIPLIER]

/-- Per-iteration accounting of the spawn loop: the loop index never
decreases below its entry value, advances by at most one, and the number
of particles placed is bounded by the index advance. -/
theorem spawnIter_bounds (sine : ℚ → ℚ) (seed : ℚ) (cam : Cam) (tNow : ℚ)
    (c : Candidate) (st : SpawnSt) :
    st.i ≤ (spawnIter sine seed cam tNow c st).i ∧
    (spawnIter sine seed cam tNow c st).i ≤ st.i + 1 ∧
    (spawnIter sine seed cam tNow c st).spawned.length + st.i ≤
      st.spawned.length + (spawnIter sine seed cam tNow c st).i := by
  rcases c with ⟨_ | ⟨hx, hz⟩⟩
  · simp [spawnIter]
  · simp only [spawnIter]
    split_ifs <;> simp <;> omega

/-- The spawn loop never places more particles than its per-tick budget
`toSpawn`. -/
theorem spawnLoop_spawn_bound (sine : ℚ → ℚ) (seed : ℚ) (cam : Cam) (tNow : ℚ)
    (toSpawn : ℕ) :
    ∀ (cands : List Candidate) (st : SpawnSt), st.i ≤ toSpawn →
      (spawnLoop sine seed cam tNow toSpawn cands st).spawned.length + st.i ≤
        st.spawned.length + toSpawn := by
  intro cands
  induction cands with
  | nil =>
    intro st h
    simp only [spawnLoop]
    omega
  | cons c cs ih =>
    intro st h
    simp only [spawnLoop]
    split_ifs with hlt
    · have hb := spawnIter_bounds sine seed cam tNow c st
      have hih := ih (spawnIter sine seed cam tNow c st) (by omega)
      omega
    · omega

/-- C7 (amended): the spawn phase places at most `BATCH_SIZE` particles per
tick; a candidate whose ray misses the ground plane or lands out of bounds
consumes its slot (the remaining work rolls into the next tick's batch);
but a candidate failing the minimum-spawn-height check is retried within
the same tick with the loop state completely unchanged (`i--`), so such
retries are not bounded by the batch cap. -/
theorem spawn_batch_and_retry (sine : ℚ → ℚ) (seed : ℚ) (cam : Cam) (tNow : ℚ) :
    (∀ (queue : ℕ) (lastWave : ℚ) (cands : List Candidate),
      (spawnPhase sine seed cam tNow queue lastWave cands).spawned.length ≤ BATCH_SIZE) ∧
    (∀ (st : SpawnSt) (hx hz : ℚ), |hx| ≤ TERRAIN_WIDTH / 2 → |hz| ≤ TERRAIN_DEPTH / 2 →
      lossFunction sine seed hx hz < MIN_SPAWN_HEIGHT →
      spawnIter sine seed cam tNow ⟨some (hx, hz)⟩ st = st) ∧
    (∀ st : SpawnSt, spawnIter sine seed cam tNow ⟨none⟩ st =
      { st with i := st.i + 1 }) := by
  refine ⟨?_, ?_, ?_⟩
  · intro queue lastWave cands
    by_cases hq : 0 < queue
    · have hb := spawnLoop_spawn_bound sine seed cam tNow (min queue BATCH_SIZE) cands
        { i := 0, queue := queue, lastWave := lastWave, spawned := [] } (Nat.zero_le _)
      simp only [spawnPhase, if_pos hq]
      simp at hb
      omega
    · simp [spawnPhase, hq]
  · intro st hx hz hbx hbz hlow
    simp only [spawnIter]
    rw [if_pos ⟨hbx, hbz⟩, if_pos hlow]
  · intro st
    rfl

/-- Witness for the amended C7: with the trivial primitives, a candidate at
the origin is in bounds but below the minimum spawn height, and one loop
iteration on it leaves the spawn state untouched. -/
theorem spawn_batch_and_retry_witness :
    |(0 : ℚ)| ≤ TERRAIN_WIDTH / 2 ∧ |(0 : ℚ)| ≤ TERRAIN_DEPTH / 2 ∧
    lossFunction prims0.sin SEED 0 0 < MIN_SPAWN_HEIGHT ∧
    spawnIter prims0.sin SEED { x := 0, y := 160, z := 300 } 0 ⟨some (0, 0)⟩
        { i := 0, queue := 5, lastWave := 0, spawned := [] } =
      { i := 0, queue := 5, lastWave := 0, spawned := [] } :=
  ⟨by norm_num [TERRAIN_WIDTH], by norm_num [TERRAIN_DEPTH],
   by rw [lossFunction_zero_sine]; norm_num [MIN_SPAWN_HEIGHT],
   (spawn_batch_and_retry prims0.sin SEED { x := 0, y := 160, z := 300 } 0).2.1
     { i := 0, queue := 5, lastWave := 0, spawned := [] } 0 0
     (by norm_num [TERRAIN_WIDTH]) (by norm_num [TERRAIN_DEPTH])
     (by rw [lossFunction_zero_sine]; norm_num [MIN_SPAWN_HEIGHT])⟩

/-- A candidate that always hits the ground plane at the origin. -/
def badCand : Candidate := ⟨some (0, 0)⟩

/-- The camera's configured initial position. -/
def cam0 : Cam := { x := 0, y := 160, z := 300 }

/-- A spawn-loop state at the start of a tick with five particles left to
place. -/
def spawnInit5 : SpawnSt := { i := 0, queue := 5, lastWave := 0, spawned := [] }

/-- The spawn loop makes no progress at all on any number of draws that
keep failing the minimum-height check: the same slot is retried forever
within the single tick. -/
theorem spawnLoop_stuck (toSpawn : ℕ) (h : 0 < toSpawn) :
    ∀ n : ℕ, spawnLoop prims0.sin SEED cam0 0 toSpawn
      (List.replicate n badCand) spawnInit5 = spawnInit5 := by
  have hone : spawnIter prims0.sin SEED cam0 0 badCand spawnInit5 = spawnInit5 := by
    simp only [spawnIter, badCand]
    rw [if_pos (by norm_num [TERRAIN_WIDTH, TERRAIN_DEPTH]),
      if_pos (by rw [lossFunction_zero_sine]; norm_num [MIN_SPAWN_HEIGHT])]
  intro n
  induction n with
  | zero => rfl
  | succ m ih =>
    rw [List.replicate_succ]
    simp only [spawnLoop]
    rw [if_pos (show spawnInit5.i < toSpawn from h), hone]
    exact ih

/-- Counterexample to C7 as stated: a slot whose candidate keeps failing
the minimum-spawn-height validation is retried `BATCH_SIZE + 1` times
within one tick — more times than the per-tick batch cap that allegedly
bounds the retries — with the loop still unfinished (`i = 0`) and nothing
placed; the slot does not roll into the next tick's batch. -/
theorem spawn_retry_unbounded_counterexample :
    spawnLoop prims0.sin SEED cam0 0 (min 5 BATCH_SIZE)
        (List.replicate (BATCH_SIZE + 1) badCand) spawnInit5 = spawnInit5 ∧
    spawnInit5.i = 0 ∧ spawnInit5.spawned = [] ∧ BATCH_SIZE < BATCH_SIZE + 1 :=
  ⟨spawnLoop_stuck (min 5 BATCH_SIZE) (by decide) (BATCH_SIZE + 1),
   rfl, rfl, Nat.lt_succ_self _⟩

/-! ## Theorems: wave-cycle liveness (C5) -/

/-- The spawn phase is a no-op when the spawn queue is empty. -/
theorem spawnPhase_zero (sine : ℚ → ℚ) (seed : ℚ) (cam : Cam) (tNow lastWave : ℚ)
    (cands : List Candidate) :
    spawnPhase sine seed cam tNow 0 lastWave cands =
      { i := 0, queue := 0, lastWave := lastWave, spawned := [] } := by
  simp [spawnPhase]

/-- One tick from a `WAITING` state with an empty queue: the scheduler
moves to `SWELLING` (recording `tAcc`) exactly when the buffer has elapsed
on the accumulated clock, and the queue stays empty. -/
theorem animateTick_waiting (prims : JsPrims) (seed : ℚ) (mapRef : Option GradMap)
    (cam : Cam) (tNow tAcc fs : ℚ) (cands : List Candidate) (st : SysState)
    (hw : st.sched.wave = WaveState.WAITING) (hq : st.sched.queue = 0) :
    ((animateTick prims seed mapRef cam tNow tAcc fs cands st).sched.wave =
      if tAcc - st.sched.stateStart > BUFFER_TIME then WaveState.SWELLING
      else WaveState.WAITING) ∧
    ((animateTick prims seed mapRef cam tNow tAcc fs cands st).sched.stateStart =
      if tAcc - st.sched.stateStart > BUFFER_TIME then tAcc
      else st.sched.stateStart) ∧
    (animateTick prims seed mapRef cam tNow tAcc fs cands st).sched.queue = 0 := by
  by_cases hbuf : tAcc - st.sched.stateStart > BUFFER_TIME
  · rw [if_pos hbuf, if_pos hbuf]
    refine ⟨?_, ?_, ?_⟩ <;>
      (norm_num [animateTick, spawnPhase, hq, hw, hbuf, waveTransitions, opacityEase,
        waiting_ne_active, waiting_ne_swelling, swelling_ne_waiting,
        swelling_ne_active, SWELL_TIME] <;> split_ifs <;> rfl)
  · rw [if_neg hbuf, if_neg hbuf]
    refine ⟨?_, ?_, ?_⟩ <;>
      (norm_num [animateTick, spawnPhase, hq, hw, hbuf, waveTransitions, opacityEase,
        waiting_ne_active, waiting_ne_swelling, swelling_ne_waiting,
        swelling_ne_active] <;> split_ifs <;> rfl)

/-- One tick from a `SWELLING` state with an empty queue: the scheduler
moves to `ACTIVE` (filling the queue with `PARTICLES_PER_WAVE`) exactly
when the swell has elapsed on the accumulated clock; the entry timestamp is
left untouched by this transition. -/
theorem animateTick_swelling (prims : JsPrims) (seed : ℚ) (mapRef : Option GradMap)
    (cam : Cam) (tNow tAcc fs : ℚ) (cands : List Candidate) (st : SysState)
    (hw : st.sched.wave = WaveState.SWELLING) (hq : st.sched.queue = 0) :
    ((animateTick prims seed mapRef cam tNow tAcc fs cands st).sched.wave =
      if tAcc - st.sched.stateStart > SWELL_TIME then WaveState.ACTIVE
      else WaveState.SWELLING) ∧
    ((animateTick prims seed mapRef cam tNow tAcc fs cands st).sched.stateStart =
      st.sched.stateStart) ∧
    ((animateTick prims seed mapRef cam tNow tAcc fs cands st).sched.queue =
      if tAcc - st.sched.stateStart > SWELL_TIME then PARTICLES_PER_WAVE else 0) ∧
    (st.parts = [] →
      (animateTick prims seed mapRef cam tNow tAcc fs cands st).parts = []) := by
  by_cases hsw : tAcc - st.sched.stateStart > SWELL_TIME
  · rw [if_pos hsw, if_pos hsw]
    have hparts : st.parts = [] →
        (animateTick prims seed mapRef cam tNow tAcc fs cands st).parts = [] := by
      intro hp
      norm_num [animateTick, spawnPhase, hq, hw, hsw, hp, waveTransitions, opacityEase,
        particlePhase, swelling_ne_active, swelling_ne_waiting, active_ne_swelling]
    refine ⟨?_, ?_, ?_, hparts⟩ <;>
      (norm_num [animateTick, spawnPhase, hq, hw, hsw, waveTransitions, opacityEase,
        swelling_ne_active, swelling_ne_waiting, active_ne_swelling] <;>
        split_ifs <;> rfl)
  · rw [if_neg hsw, if_neg hsw]
    have hparts : st.parts = [] →
        (animateTick prims seed mapRef cam tNow tAcc fs cands st).parts = [] := by
      intro hp
      norm_num [animateTick, spawnPhase, hq, hw, hsw, hp, waveTransitions, opacityEase,
        particlePhase, swelling_ne_active, swelling_ne_waiting]
    refine ⟨?_, ?_, ?_, hparts⟩ <;>
      (norm_num [animateTick, spawnPhase, hq, hw, hsw, waveTransitions, opacityEase,
        swelling_ne_active, swelling_ne_waiting] <;> split_ifs <;> rfl)

/-- One tick from an `ACTIVE` state whose queue has drained and whose
max-interval timeout has expired returns to `WAITING`, regardless of the
particle set (in particular for an empty one). -/
theorem animateTick_active_timeout (prims : JsPrims) (seed : ℚ) (mapRef : Option GradMap)
    (cam : Cam) (tNow tAcc fs : ℚ) (cands : List Candidate) (st : SysState)
    (hw : st.sched.wave = WaveState.ACTIVE) (hq : st.sched.queue = 0)
    (ht : tNow - st.sched.lastWave > MAX_WAVE_INTERVAL) (hta : tAcc ≤ tNow) :
    (animateTick prims seed mapRef cam tNow tAcc fs cands st).sched.wave =
      WaveState.WAITING := by
  have hnb : ¬ (tAcc - tNow > BUFFER_TIME) := by
    norm_num [BUFFER_TIME]
    linarith
  norm_num [animateTick, spawnPhase, hq, hw, ht, hnb, waveTransitions, opacityEase,
    active_ne_waiting, active_ne_swelling, waiting_ne_swelling, waiting_ne_active] <;>
    split_ifs <;> rfl

/-- A run of the simulation: tick `k` executes at accumulated time
`times k`, wall time `times k + tOffset` (`tOffset` is the wall-clock epoch
of the mount), with that tick's candidate draws and frame scale. -/
def runSys (prims : JsPrims) (seed : ℚ) (mapRef : Option GradMap) (cam : Cam)
    (times : ℕ → ℚ) (tOffset : ℚ) (cands : ℕ → List Candidate) (fss : ℕ → ℚ)
    (st0 : SysState) : ℕ → SysState
  | 0 => st0
  | k + 1 => animateTick prims seed mapRef cam (times k + tOffset) (times k)
      (fss k) (cands k) (runSys prims seed mapRef cam times tOffset cands fss st0 k)

/-- C5 (amended): starting in `WAITING` with an empty queue and an entry
timestamp consistent with the accumulated clock, the scheduler reaches
`ACTIVE` by the tick after the buffer and swell thresholds have both been
crossed (i.e. within `bufferTime + swellTime` plus at most one tick per
transition); and from `ACTIVE` it returns to `WAITING` by the first tick
past `MAX_WAVE_INTERVAL` after the last spawn **provided the spawn queue
has drained to zero** — an empty active-particle set does not block the
transition (the timeout path applies), but a positive remaining spawn
queue does. -/
theorem wave_cycle_liveness (prims : JsPrims) (seed : ℚ) (mapRef : Option GradMap)
    (cam : Cam) (times : ℕ → ℚ) (tOffset : ℚ) (cands : ℕ → List Candidate)
    (fss : ℕ → ℚ) (st0 : SysState)
    (hmono : ∀ i j : ℕ, i ≤ j → times i ≤ times j)
    (hw : st0.sched.wave = WaveState.WAITING)
    (hq : st0.sched.queue = 0)
    (j n : ℕ) (hjn : j ≤ n)
    (hj : times j - st0.sched.stateStart > BUFFER_TIME)
    (hn : times n - times j > SWELL_TIME) :
    (∃ m, m ≤ n + 1 ∧
      (runSys prims seed mapRef cam times tOffset cands fss st0 m).sched.wave =
        WaveState.ACTIVE) ∧
    (∀ (st : SysState) (tNow tAcc fs : ℚ) (cs : List Candidate),
      st.sched.wave = WaveState.ACTIVE → st.sched.queue = 0 →
      tNow - st.sched.lastWave > MAX_WAVE_INTERVAL → tAcc ≤ tNow →
      (animateTick prims seed mapRef cam tNow tAcc fs cs st).sched.wave =
        WaveState.WAITING) := by
  constructor
  case right =>
    intro st tNow tAcc fs cs h1 h2 h3 h4
    exact animateTick_active_timeout prims seed mapRef cam tNow tAcc fs cs st h1 h2 h3 h4
  case left =>
    by_contra hG
    push_neg at hG
    set R := runSys prims seed mapRef cam times tOffset cands fss st0 with hRdef
    have hRs : ∀ k, R (k + 1) = animateTick prims seed mapRef cam
        (times k + tOffset) (times k) (fss k) (cands k) (R k) := fun k => rfl
    have inv : ∀ k, k ≤ j →
        (R k).sched.queue = 0 ∧
        (((R k).sched.wave = WaveState.WAITING ∧
          (R k).sched.stateStart = st0.sched.stateStart) ∨
         ((R k).sched.wave = WaveState.SWELLING ∧
          ∃ i, i < k ∧ (R k).sched.stateStart = times i)) := by
      intro k
      induction k with
      | zero =>
        intro _
        exact ⟨hq, Or.inl ⟨hw, rfl⟩⟩
      | succ m ih =>
        intro hmj
        obtain ⟨ihq, ihcase⟩ := ih (Nat.le_of_succ_le hmj)
        rcases ihcase with ⟨hwm, hsm⟩ | ⟨hwm, i, hi, hsm⟩
        · have hL := animateTick_waiting prims seed mapRef cam
            (times m + tOffset) (times m) (fss m) (cands m) (R m) hwm ihq
          by_cases hbuf : times m - (R m).sched.stateStart > BUFFER_TIME
          · refine ⟨?_, Or.inr ⟨?_, m, Nat.lt_succ_self m, ?_⟩⟩
            · rw [hRs m]
              exact hL.2.2
            · rw [hRs m, hL.1, if_pos hbuf]
            · rw [hRs m, hL.2.1, if_pos hbuf]
          · refine ⟨?_, Or.inl ⟨?_, ?_⟩⟩
            · rw [hRs m]
              exact hL.2.2
            · rw [hRs m, hL.1, if_neg hbuf]
            · rw [hRs m, hL.2.1, if_neg hbuf]
              exact hsm
        · have hL := animateTick_swelling prims seed mapRef cam
            (times m + tOffset) (times m) (fss m) (cands m) (R m) hwm ihq
          by_cases hsw : times m - (R m).sched.stateStart > SWELL_TIME
          · exfalso
            have hact : (R (m + 1)).sched.wave = WaveState.ACTIVE := by
              rw [hRs m, hL.1, if_pos hsw]
            exact hG (m + 1) (by omega) hact
          · refine ⟨?_, Or.inr ⟨?_, i, Nat.lt_succ_of_lt hi, ?_⟩⟩
            · rw [hRs m, hL.2.2.1, if_neg hsw]
            · rw [hRs m, hL.1, if_neg hsw]
            · rw [hRs m, hL.2.1]
              exact hsm
    have hjlt : j < n := by
      by_contra hcon
      push_neg at hcon
      have hmn := hmono n j hcon
      have hS : (0 : ℚ) < SWELL_TIME := by norm_num [SWELL_TIME]
      linarith
    obtain ⟨hqj, hcase⟩ := inv j le_rfl
    have hstep2 : ∃ j1, j1 ≤ j + 1 ∧ (R j1).sched.wave = WaveState.SWELLING ∧
        (R j1).sched.queue = 0 ∧ (R j1).sched.stateStart ≤ times j := by
      rcases hcase with ⟨hwj, hsj⟩ | ⟨hwj, i, hij, hsij⟩
      · have hL := animateTick_waiting prims seed mapRef cam
          (times j + tOffset) (times j) (fss j) (cands j) (R j) hwj hqj
        have hbuf : times j - (R j).sched.stateStart > BUFFER_TIME := by
          rw [hsj]
          exact hj
        refine ⟨j + 1, le_rfl, ?_, ?_, ?_⟩
        · rw [hRs j, hL.1, if_pos hbuf]
        · rw [hRs j]
          exact hL.2.2
        · rw [hRs j, hL.2.1, if_pos hbuf]
      · refine ⟨j, Nat.le_succ j, hwj, hqj, ?_⟩
        rw [hsij]
        exact hmono i j (le_of_lt hij)
    obtain ⟨j1, hj1le, hj1w, hj1q, hj1s⟩ := hstep2
    have persist : ∀ d, j1 + d ≤ n →
        (R (j1 + d)).sched.wave = WaveState.SWELLING ∧
        (R (j1 + d)).sched.queue = 0 ∧
        (R (j1 + d)).sched.stateStart = (R j1).sched.stateStart := by
      intro d
      induction d with
      | zero =>
        intro _
        exact ⟨hj1w, hj1q, rfl⟩
      | succ e ihe =>
        intro hle
        obtain ⟨hwE, hqE, hsE⟩ := ihe (by omega)
        have hL := animateTick_swelling prims seed mapRef cam
          (times (j1 + e) + tOffset) (times (j1 + e)) (fss (j1 + e))
          (cands (j1 + e)) (R (j1 + e)) hwE hqE
        by_cases hswE : times (j1 + e) - (R (j1 + e)).sched.stateStart > SWELL_TIME
        · exfalso
          have hact : (R (j1 + e + 1)).sched.wave = WaveState.ACTIVE := by
            rw [hRs (j1 + e), hL.1, if_pos hswE]
          exact hG (j1 + e + 1) (by omega) hact
        · have h1w : (R (j1 + (e + 1))).sched.wave = WaveState.SWELLING := by
            rw [show j1 + (e + 1) = j1 + e + 1 by omega, hRs (j1 + e), hL.1, if_neg hswE]
          have h1q : (R (j1 + (e + 1))).sched.queue = 0 := by
            rw [show j1 + (e + 1) = j1 + e + 1 by omega, hRs (j1 + e), hL.2.2.1, if_neg hswE]
          have h1s : (R (j1 + (e + 1))).sched.stateStart = (R j1).sched.stateStart := by
            rw [show j1 + (e + 1) = j1 + e + 1 by omega, hRs (j1 + e), hL.2.1]
            exact hsE
          exact ⟨h1w, h1q, h1s⟩
    obtain ⟨hwN, hqN, hsN⟩ := persist (n - j1) (by omega)
    rw [show j1 + (n - j1) = n by omega] at hwN hqN hsN
    have hL := animateTick_swelling prims seed mapRef cam
      (times n + tOffset) (times n) (fss n) (cands n) (R n) hwN hqN
    have hfire : times n - (R n).sched.stateStart > SWELL_TIME := by
      rw [hsN]
      linarith [hj1s, hn]
    have hact : (R (n + 1)).sched.wave = WaveState.ACTIVE := by
      rw [hRs n, hL.1, if_pos hfire]
    exact hG (n + 1) le_rfl hact

/-- The spawn loop ignores candidates whose ray misses the plane: queue,
last-wave timestamp and placements are unchanged (only the slot index
advances). -/
theorem spawnLoop_miss (sine : ℚ → ℚ) (seed : ℚ) (cam : Cam) (tNow : ℚ)
    (toSpawn : ℕ) :
    ∀ (cs : List Candidate), (∀ c ∈ cs, c.hit = none) → ∀ st : SpawnSt,
      (spawnLoop sine seed cam tNow toSpawn cs st).queue = st.queue ∧
      (spawnLoop sine seed cam tNow toSpawn cs st).lastWave = st.lastWave ∧
      (spawnLoop sine seed cam tNow toSpawn cs st).spawned = st.spawned := by
  intro cs
  induction cs with
  | nil =>
    intro _ st
    exact ⟨rfl, rfl, rfl⟩
  | cons c cs2 ih =>
    intro hm st
    simp only [spawnLoop]
    split_ifs with hi
    · have hc : c.hit = none := hm c (List.mem_cons_self c cs2)
      have hiter : spawnIter sine seed cam tNow c st = { st with i := st.i + 1 } := by
        rcases c with ⟨ch⟩
        simp only at hc
        subst hc
        rfl
      rw [hiter]
      exact ih (fun c2 h2 => hm c2 (List.mem_cons_of_mem c h2)) _
    · exact ⟨rfl, rfl, rfl⟩

/-- The spawn phase on all-miss draws changes nothing but the slot index. -/
theorem spawnPhase_miss (sine : ℚ → ℚ) (seed : ℚ) (cam : Cam) (tNow : ℚ)
    (queue : ℕ) (lastWave : ℚ) (cs : List Candidate)
    (hmiss : ∀ c ∈ cs, c.hit = none) :
    (spawnPhase sine seed cam tNow queue lastWave cs).queue = queue ∧
    (spawnPhase sine seed cam tNow queue lastWave cs).lastWave = lastWave ∧
    (spawnPhase sine seed cam tNow queue lastWave cs).spawned = [] := by
  by_cases hqp : 0 < queue
  · simp only [spawnPhase, if_pos hqp]
    exact spawnLoop_miss sine seed cam tNow (min queue BATCH_SIZE) cs hmiss _
  · simp [spawnPhase, hqp]

/-- One tick from `ACTIVE` with a positive spawn queue and only missing
raycasts: the scheduler stays `ACTIVE` with the queue unchanged — the
`ACTIVE → WAITING` transition is blocked by the positive queue no matter
how much time has passed. -/
theorem animateTick_active_stuck (prims : JsPrims) (seed : ℚ) (mapRef : Option GradMap)
    (cam : Cam) (tNow tAcc fs : ℚ) (cs : List Candidate) (st : SysState)
    (hw : st.sched.wave = WaveState.ACTIVE) (hq : st.sched.queue ≠ 0)
    (hmiss : ∀ c ∈ cs, c.hit = none) :
    (animateTick prims seed mapRef cam tNow tAcc fs cs st).sched.wave =
      WaveState.ACTIVE ∧
    (animateTick prims seed mapRef cam tNow tAcc fs cs st).sched.queue =
      st.sched.queue ∧
    (animateTick prims seed mapRef cam tNow tAcc fs cs st).parts =
      particlePhase prims seed mapRef st.sched.queue fs st.parts := by
  obtain ⟨hq1, hl1, hs1⟩ := spawnPhase_miss prims.sin seed cam tNow st.sched.queue
    st.sched.lastWave cs hmiss
  refine ⟨?_, ?_, ?_⟩ <;>
    (norm_num [animateTick, waveTransitions, opacityEase, hw, hq, hq1, hl1, hs1,
       active_ne_waiting, active_ne_swelling] <;> split_ifs <;> rfl)

/-- Tick times for the C5 counterexample run: the swell fires at `3 s`, the
next tick happens at `25 s` — more than `MAX_WAVE_INTERVAL` later. -/
def timesCE : ℕ → ℚ := fun k => if k = 0 then 3 else 25

/-- Candidate draws for the C5 counterexample run: every ray misses the
ground plane, so no particle of the wave ever spawns. -/
def candsCE : ℕ → List Candidate := fun _ => List.replicate 20 ⟨none⟩

/-- Initial state for the C5 counterexample run: `SWELLING` since time `0`
with an empty queue and no particles. -/
def stCE : SysState :=
  { sched := ⟨WaveState.SWELLING, 0, 0, 0, 7 / 100⟩, parts := [] }

/-- Counterexample to C5 as stated: the swell releases a wave
(`ACTIVE`, queue = `PARTICLES_PER_WAVE`) at `3 s`, zero particles spawn
(every ray misses), and at `25 s` — `22 s > MAX_WAVE_INTERVAL` after the
wave was released — the scheduler is still `ACTIVE` with the queue still
full: a wave with zero successful spawns never returns to `WAITING`,
because the `ACTIVE → WAITING` transition requires the spawn queue to have
drained to zero. -/
theorem wave_stuck_active_counterexample :
    (runSys prims0 SEED none cam0 timesCE 0 candsCE (fun _ => 1) stCE 1).sched.wave =
      WaveState.ACTIVE ∧
    (runSys prims0 SEED none cam0 timesCE 0 candsCE (fun _ => 1) stCE 2).sched.wave =
      WaveState.ACTIVE ∧
    (runSys prims0 SEED none cam0 timesCE 0 candsCE (fun _ => 1) stCE 2).sched.queue =
      PARTICLES_PER_WAVE ∧
    (runSys prims0 SEED none cam0 timesCE 0 candsCE (fun _ => 1) stCE 2).parts = [] ∧
    timesCE 1 - timesCE 0 > MAX_WAVE_INTERVAL := by
  have hmiss : ∀ k : ℕ, ∀ c ∈ candsCE k, c.hit = none := by
    intro k c hc
    have := List.eq_of_mem_replicate hc
    rw [this]
  have hR1 : runSys prims0 SEED none cam0 timesCE 0 candsCE (fun _ => 1) stCE 1 =
      animateTick prims0 SEED none cam0 (timesCE 0 + 0) (timesCE 0) 1
        (candsCE 0) stCE := rfl
  have h1 := animateTick_swelling prims0 SEED none cam0 (timesCE 0 + 0) (timesCE 0) 1
    (candsCE 0) stCE rfl rfl
  have hfire : timesCE 0 - stCE.sched.stateStart > SWELL_TIME := by
    norm_num [timesCE, stCE, SWELL_TIME]
  have hw1 : (runSys prims0 SEED none cam0 timesCE 0 candsCE (fun _ => 1)
      stCE 1).sched.wave = WaveState.ACTIVE := by
    rw [hR1, h1.1, if_pos hfire]
  have hq1 : (runSys prims0 SEED none cam0 timesCE 0 candsCE (fun _ => 1)
      stCE 1).sched.queue = PARTICLES_PER_WAVE := by
    rw [hR1, h1.2.2.1, if_pos hfire]
  have hp1 : (runSys prims0 SEED none cam0 timesCE 0 candsCE (fun _ => 1)
      stCE 1).parts = [] := by
    rw [hR1, h1.2.2.2 rfl]
  have hR2 : runSys prims0 SEED none cam0 timesCE 0 candsCE (fun _ => 1) stCE 2 =
      animateTick prims0 SEED none cam0 (timesCE 1 + 0) (timesCE 1) 1 (candsCE 1)
        (runSys prims0 SEED none cam0 timesCE 0 candsCE (fun _ => 1) stCE 1) := rfl
  have h2 := animateTick_active_stuck prims0 SEED none cam0 (timesCE 1 + 0)
    (timesCE 1) 1 (candsCE 1)
    (runSys prims0 SEED none cam0 timesCE 0 candsCE (fun _ => 1) stCE 1)
    hw1 (by rw [hq1]; norm_num [PARTICLES_PER_WAVE]) (hmiss 1)
  refine ⟨hw1, ?_, ?_, ?_, by norm_num [timesCE, MAX_WAVE_INTERVAL]⟩
  · rw [hR2]
    exact h2.1
  · rw [hR2, h2.2.1, hq1]
  · rw [hR2, h2.2.2, hp1]
    rfl

/-- A fresh `WAITING` system state for the liveness witness. -/
def stWitnessW : SysState :=
  { sched := ⟨WaveState.WAITING, 0, 0, 0, 7 / 100⟩, parts := [] }

/-- Witness for the amended C5 on a concrete run: unit-spaced ticks from a
fresh `WAITING` state cross the buffer threshold by tick 2 and the swell
threshold by tick 5, so the run is `ACTIVE` by tick 6. -/
theorem wave_cycle_liveness_witness :
    (∃ m, m ≤ 5 + 1 ∧
      (runSys prims0 SEED none cam0 (fun k => (k : ℚ)) 0 candsCE (fun _ => 1)
        stWitnessW m).sched.wave = WaveState.ACTIVE) ∧
    (∀ (st : SysState) (tNow tAcc fs : ℚ) (cs : List Candidate),
      st.sched.wave = WaveState.ACTIVE → st.sched.queue = 0 →
      tNow - st.sched.lastWave > MAX_WAVE_INTERVAL → tAcc ≤ tNow →
      (animateTick prims0 SEED none cam0 tNow tAcc fs cs st).sched.wave =
        WaveState.WAITING) :=
  wave_cycle_liveness prims0 SEED none cam0 (fun k => (k : ℚ)) 0 candsCE
    (fun _ => 1) stWitnessW
    (fun i j h => by exact_mod_cast Nat.cast_le.mpr h)
    rfl rfl 2 5 (by norm_num)
    (by norm_num [BUFFER_TIME, stWitnessW])
    (by norm_num [SWELL_TIME])

end LossLandscape
